import Mathlib

/-!
# xone GIP gamepad and headset drivers: a shallow embedding of `driver/gamepad.c` and
`driver/headset.c`

Gamepad: the packet decoders (`gip_gamepad_op_input`, `gip_gamepad_op_firmware`), the
paddle capability detection (`gip_gamepad_query_paddles`) and the rumble rate limiter
(`gip_gamepad_queue_rumble`, `gip_gamepad_send_rumble`, `gip_gamepad_init_rumble`) are
translated function by function. Headset: the startup retry timer
(`gip_headset_start_audio`), the ring buffer copies (`gip_headset_advance_pointer`,
`gip_headset_copy_playback`, `gip_headset_copy_capture`), the trigger, the audio pump
(`gip_headset_send_samples`), the power-on task (`gip_headset_power_on`) and the teardown
(`gip_headset_remove`).

Conventions of the embedding:

* a packet is the list of its bytes, `len` is the length of that list (the
  transport hands over a buffer of exactly `len` bytes, `len` being a `u32`);
* the input device is modelled by the trace of the calls made on it:
  `input_report_key`, `input_report_abs` and `input_sync` append one
  `InputEvent` each, in program order; the calls of the headset driver on the transport,
  the timers, the work queues and the sound core are traced the same way
  (`headset_call`);
* C integers are `Nat`/`Int` with an explicit wrap where a narrower type is
  stored (`u8`, `u32`); buffer sizes and cursors are byte counts of allocated buffers,
  far below the range of `size_t`, and only the unsigned subtraction is wrapped;
* values that the driver receives from outside (the result of a transport call, the tick
  rate `HZ` of the kernel, the current time) are parameters of the handlers.
-/

namespace Xone

/-! ## Constants of `gamepad.c` -/

def GIP_VENDOR_MICROSOFT : Nat := 0x045e
def GIP_PRODUCT_ELITE_SERIES_2 : Nat := 0x0b00
def GIP_PRODUCT_ELITE : Nat := 0x02e3

def GIP_ELITE_SERIES_2_4X_FIRMWARE : Nat := 0x04FF
def GIP_ELITE_SERIES_2_510_FIRMWARE : Nat := 0x050A

def GIP_GP_RUMBLE_MAX : Nat := 100

/-- Button offset from end of packet. -/
def GIP_GP_BTN_SHARE_OFFSET : Nat := 18

/-- The kernel errno `EINVAL`. -/
def EINVAL : Int := 22

def S16_MAX : Nat := 32767
def U16_MAX : Nat := 65535

/-- The kernel helper `BIT(n)`. -/
def BIT (n : Nat) : Nat := 1 <<< n

/-- Masks of `enum gip_gamepad_button`. -/
def GIP_GP_BTN_MENU : Nat := BIT 2
def GIP_GP_BTN_VIEW : Nat := BIT 3
def GIP_GP_BTN_A : Nat := BIT 4
def GIP_GP_BTN_B : Nat := BIT 5
def GIP_GP_BTN_X : Nat := BIT 6
def GIP_GP_BTN_Y : Nat := BIT 7
def GIP_GP_BTN_DPAD_U : Nat := BIT 8
def GIP_GP_BTN_DPAD_D : Nat := BIT 9
def GIP_GP_BTN_DPAD_L : Nat := BIT 10
def GIP_GP_BTN_DPAD_R : Nat := BIT 11
def GIP_GP_BTN_BUMPER_L : Nat := BIT 12
def GIP_GP_BTN_BUMPER_R : Nat := BIT 13
def GIP_GP_BTN_STICK_L : Nat := BIT 14
def GIP_GP_BTN_STICK_R : Nat := BIT 15

/-- Masks of `enum gip_gamepad_paddle`. -/
def GIP_GP_BTN_P1 : Nat := BIT 0
def GIP_GP_BTN_P2 : Nat := BIT 1
def GIP_GP_BTN_P3 : Nat := BIT 2
def GIP_GP_BTN_P4 : Nat := BIT 3

/-- Masks of `enum gip_gamepad_motor`. -/
def GIP_GP_MOTOR_R : Nat := BIT 0
def GIP_GP_MOTOR_L : Nat := BIT 1
def GIP_GP_MOTOR_RT : Nat := BIT 2
def GIP_GP_MOTOR_LT : Nat := BIT 3

/-- Size of `struct gip_gamepad_pkt_firmware`: `u8 unknown[14]; u8 paddles; u8 profile`. -/
def sizeof_gip_gamepad_pkt_firmware : Nat := 14 + 1 + 1

/-- Size of `struct gip_gamepad_pkt_input`: seven `__le16` fields. -/
def sizeof_gip_gamepad_pkt_input : Nat := 7 * 2

/-- Size of `struct gip_gamepad_pkt_dli`: two `u32` counters. -/
def sizeof_gip_gamepad_pkt_dli : Nat := 4 + 4

/-! ## Data model -/

/-- One byte of a packet. -/
abbrev u8 := Fin 256

/-- The paddle layout of the controller (`enum PaddleCapability`). -/
inductive PaddleCapability where
  | PADDLE_NONE
  | PADDLE_ELITE
  | PADDLE_ELITE2_4X
  | PADDLE_ELITE2_510
  | PADDLE_ELITE2_511
  deriving DecidableEq, Repr

/-- The key codes the gamepad driver reports. -/
inductive KeyCode where
  | KEY_RECORD
  | BTN_MODE
  | BTN_START
  | BTN_SELECT
  | BTN_A
  | BTN_B
  | BTN_X
  | BTN_Y
  | BTN_TL
  | BTN_TR
  | BTN_THUMBL
  | BTN_THUMBR
  | BTN_TRIGGER_HAPPY5
  | BTN_TRIGGER_HAPPY6
  | BTN_TRIGGER_HAPPY7
  | BTN_TRIGGER_HAPPY8
  deriving DecidableEq, Repr

/-- The absolute axes the gamepad driver reports. -/
inductive AbsCode where
  | ABS_X
  | ABS_RX
  | ABS_Y
  | ABS_RY
  | ABS_Z
  | ABS_RZ
  | ABS_HAT0X
  | ABS_HAT0Y
  deriving DecidableEq, Repr

/-- One call made on the input device. -/
inductive InputEvent where
  | key (code : KeyCode) (pressed : Bool)
  | abs (code : AbsCode) (value : Int)
  | sync
  deriving DecidableEq, Repr

/-- The input device, as the trace of the calls made on it so far. -/
abbrev input_dev := List InputEvent

/-- Kernel `input_report_key(dev, code, value)`: the key state is `!!value`. -/
def input_report_key (dev : input_dev) (code : KeyCode) (value : Int) : input_dev :=
  dev ++ [InputEvent.key code (value != 0)]

/-- Kernel `input_report_abs(dev, code, value)`. -/
def input_report_abs (dev : input_dev) (code : AbsCode) (value : Int) : input_dev :=
  dev ++ [InputEvent.abs code value]

/-- Kernel `input_sync(dev)`: commits the events reported so far. -/
def input_sync (dev : input_dev) : input_dev :=
  dev ++ [InputEvent.sync]

/-- The hardware identity the transport supplies (`struct gip_hardware`). -/
structure gip_hardware where
  vendor : Nat
  product : Nat
  version : Nat
  deriving DecidableEq, Repr

/-- The fields of `struct gip_gamepad` that the decoders read. -/
structure gip_gamepad where
  supports_share : Bool
  supports_dli : Bool
  paddle_support : PaddleCapability
  deriving DecidableEq, Repr

/-! ## Reading a packet -/

/-- The byte `((u8 *)data)[i]`, as a number. -/
def byteAt (data : List u8) (i : Nat) : Nat :=
  (data.getD i 0).val

/-- The little-endian 16-bit field at byte offset `off`, after `le16_to_cpu`. -/
def le16_to_cpu (data : List u8) (off : Nat) : Nat :=
  byteAt data off + 256 * byteAt data (off + 1)

/-- The C cast `(s16)` of a 16-bit value. -/
def s16 (r : Nat) : Int :=
  if r % 65536 < 32768 then ((r % 65536 : Nat) : Int) else ((r % 65536 : Nat) : Int) - 65536

/-- The C operator `!!` on an integer, as 0 or 1. -/
def notnot (v : Nat) : Int :=
  if v ≠ 0 then 1 else 0

/-! ## `gip_gamepad_query_paddles` -/

def gip_gamepad_query_paddles (hardware : gip_hardware) : PaddleCapability :=
  if hardware.vendor ≠ GIP_VENDOR_MICROSOFT then
    PaddleCapability.PADDLE_NONE
  else if hardware.product = GIP_PRODUCT_ELITE then
    PaddleCapability.PADDLE_ELITE
  else if hardware.product ≠ GIP_PRODUCT_ELITE_SERIES_2 then
    PaddleCapability.PADDLE_NONE
  else if hardware.version ≤ GIP_ELITE_SERIES_2_4X_FIRMWARE then
    PaddleCapability.PADDLE_ELITE2_4X
  else if hardware.version ≤ GIP_ELITE_SERIES_2_510_FIRMWARE then
    PaddleCapability.PADDLE_ELITE2_510
  else if hardware.version > GIP_ELITE_SERIES_2_510_FIRMWARE then
    PaddleCapability.PADDLE_ELITE2_511
  else
    PaddleCapability.PADDLE_NONE

/-! ## `gip_gamepad_op_firmware` -/

/-- The firmware-status decoder: the return value and the calls made on the input device. -/
def gip_gamepad_op_firmware (data : List u8) : Int × input_dev :=
  let len := data.length
  if len < sizeof_gip_gamepad_pkt_firmware then
    (-EINVAL, [])
  else
    let paddles := byteAt data 14
    let dev : input_dev := []
    let dev := input_report_key dev KeyCode.BTN_TRIGGER_HAPPY5 (paddles &&& GIP_GP_BTN_P1 : Nat)
    let dev := input_report_key dev KeyCode.BTN_TRIGGER_HAPPY6 (paddles &&& GIP_GP_BTN_P2 : Nat)
    let dev := input_report_key dev KeyCode.BTN_TRIGGER_HAPPY7 (paddles &&& GIP_GP_BTN_P3 : Nat)
    let dev := input_report_key dev KeyCode.BTN_TRIGGER_HAPPY8 (paddles &&& GIP_GP_BTN_P4 : Nat)
    let dev := input_sync dev
    (0, dev)

/-! ## `gip_gamepad_op_input` -/

/-- The paddle selection of `gip_gamepad_op_input`: `(report_paddles, series_1, paddles)`. -/
def select_paddles (paddle_support : PaddleCapability) (data : List u8) : Bool × Bool × Nat :=
  let len := data.length
  if paddle_support = PaddleCapability.PADDLE_ELITE2_510 ∧ len > 18 then
    let paddles := byteAt data 18
    let paddles := if len > 19 ∧ byteAt data 19 ≠ 0 then 0 else paddles
    (true, false, paddles)
  else if paddle_support = PaddleCapability.PADDLE_ELITE2_4X ∧ len > 14 then
    let paddles := byteAt data 14
    let paddles := if len > 15 ∧ byteAt data 15 ≠ 0 then 0 else paddles
    (true, false, paddles)
  else if paddle_support = PaddleCapability.PADDLE_ELITE ∧ len > 28 then
    let paddles := byteAt data 28
    (true, true, paddles)
  else
    (false, false, 0)

/-- The share offset computed by `gip_gamepad_op_input`, a `u8`. -/
def share_offset (gamepad : gip_gamepad) : Nat :=
  if gamepad.supports_dli then
    (GIP_GP_BTN_SHARE_OFFSET + sizeof_gip_gamepad_pkt_dli) % 256
  else
    GIP_GP_BTN_SHARE_OFFSET

/-- The input decoder: the return value and the calls made on the input device. -/
def gip_gamepad_op_input (gamepad : gip_gamepad) (data : List u8) : Int × input_dev :=
  let len := data.length
  if len < sizeof_gip_gamepad_pkt_input then
    (-EINVAL, [])
  else
    let buttons := le16_to_cpu data 0
    if gamepad.supports_share ∧ len < share_offset gamepad then
      (-EINVAL, [])
    else
      let dev : input_dev := []
      let dev :=
        if gamepad.supports_share then
          input_report_key dev KeyCode.KEY_RECORD (byteAt data (len - share_offset gamepad) : Nat)
        else dev
      let dev := input_report_key dev KeyCode.BTN_START (buttons &&& GIP_GP_BTN_MENU : Nat)
      let dev := input_report_key dev KeyCode.BTN_SELECT (buttons &&& GIP_GP_BTN_VIEW : Nat)
      let dev := input_report_key dev KeyCode.BTN_A (buttons &&& GIP_GP_BTN_A : Nat)
      let dev := input_report_key dev KeyCode.BTN_B (buttons &&& GIP_GP_BTN_B : Nat)
      let dev := input_report_key dev KeyCode.BTN_X (buttons &&& GIP_GP_BTN_X : Nat)
      let dev := input_report_key dev KeyCode.BTN_Y (buttons &&& GIP_GP_BTN_Y : Nat)
      let dev := input_report_key dev KeyCode.BTN_TL (buttons &&& GIP_GP_BTN_BUMPER_L : Nat)
      let dev := input_report_key dev KeyCode.BTN_TR (buttons &&& GIP_GP_BTN_BUMPER_R : Nat)
      let dev := input_report_key dev KeyCode.BTN_THUMBL (buttons &&& GIP_GP_BTN_STICK_L : Nat)
      let dev := input_report_key dev KeyCode.BTN_THUMBR (buttons &&& GIP_GP_BTN_STICK_R : Nat)
      let (report_paddles, series_1, paddles) := select_paddles gamepad.paddle_support data
      let dev :=
        if report_paddles then
          let dev := input_report_key dev KeyCode.BTN_TRIGGER_HAPPY5
            (paddles &&& (if series_1 then GIP_GP_BTN_P2 else GIP_GP_BTN_P1) : Nat)
          let dev := input_report_key dev KeyCode.BTN_TRIGGER_HAPPY6
            (paddles &&& (if series_1 then GIP_GP_BTN_P4 else GIP_GP_BTN_P2) : Nat)
          let dev := input_report_key dev KeyCode.BTN_TRIGGER_HAPPY7
            (paddles &&& (if series_1 then GIP_GP_BTN_P1 else GIP_GP_BTN_P3) : Nat)
          input_report_key dev KeyCode.BTN_TRIGGER_HAPPY8
            (paddles &&& (if series_1 then GIP_GP_BTN_P3 else GIP_GP_BTN_P4) : Nat)
        else dev
      let dev := input_report_abs dev AbsCode.ABS_X (s16 (le16_to_cpu data 6))
      let dev := input_report_abs dev AbsCode.ABS_RX (s16 (le16_to_cpu data 10))
      let dev := input_report_abs dev AbsCode.ABS_Y (~~~ (s16 (le16_to_cpu data 8)))
      let dev := input_report_abs dev AbsCode.ABS_RY (~~~ (s16 (le16_to_cpu data 12)))
      let dev := input_report_abs dev AbsCode.ABS_Z (le16_to_cpu data 2 : Nat)
      let dev := input_report_abs dev AbsCode.ABS_RZ (le16_to_cpu data 4 : Nat)
      let dev := input_report_abs dev AbsCode.ABS_HAT0X
        (notnot (buttons &&& GIP_GP_BTN_DPAD_R) - notnot (buttons &&& GIP_GP_BTN_DPAD_L))
      let dev := input_report_abs dev AbsCode.ABS_HAT0Y
        (notnot (buttons &&& GIP_GP_BTN_DPAD_D) - notnot (buttons &&& GIP_GP_BTN_DPAD_U))
      let dev := input_sync dev
      (0, dev)

/-! ## Rumble: `gip_gamepad_queue_rumble` -/

/-- The kernel force-feedback effect type `FF_RUMBLE`. -/
def FF_RUMBLE : Nat := 0x50

/-- Storing into a `u8`. -/
def wrap_u8 (n : Nat) : Nat := n % 2 ^ 8

/-- Arithmetic in `u32`. -/
def wrap_u32 (n : Nat) : Nat := n % 2 ^ 32

/-- Arithmetic in `unsigned long` (64-bit kernel). -/
def wrap_ulong (n : Nat) : Nat := n % 2 ^ 64

/-- The part of `struct ff_effect` the driver reads: the type and the two `__u16`
magnitudes of `u.rumble`. -/
structure ff_effect where
  type : Nat
  strong_magnitude : Nat
  weak_magnitude : Nat
  deriving DecidableEq, Repr

/-- The rumble command (`struct gip_gamepad_pkt_rumble`), nine `u8` fields. -/
structure gip_gamepad_pkt_rumble where
  unknown : Nat
  motors : Nat
  left_trigger : Nat
  right_trigger : Nat
  left : Nat
  right : Nat
  duration : Nat
  delay : Nat
  «repeat» : Nat
  deriving DecidableEq, Repr

/-- The rumble state (`struct gip_gamepad_rumble`): `timer` is the expiry time of the
timer when it is pending and `none` when it is not. -/
structure gip_gamepad_rumble where
  last : Nat
  timer : Option Nat
  pkt : gip_gamepad_pkt_rumble
  deriving DecidableEq, Repr

/-- The effect-update path. `GIP_GP_RUMBLE_DELAY` is `msecs_to_jiffies(10)`, which depends
on the kernel configuration and is taken as a parameter. Returns the return value and the
rumble state afterwards. -/
def gip_gamepad_queue_rumble (GIP_GP_RUMBLE_DELAY : Nat) (rumble : gip_gamepad_rumble)
    (effect : ff_effect) : Int × gip_gamepad_rumble :=
  let mag_left := wrap_u32 effect.strong_magnitude
  let mag_right := wrap_u32 effect.weak_magnitude
  if effect.type ≠ FF_RUMBLE then
    (0, rumble)
  else
    let pkt := rumble.pkt
    let pkt := { pkt with
      left := wrap_u8 (wrap_u32 (wrap_u32 (mag_left * GIP_GP_RUMBLE_MAX) + S16_MAX) / U16_MAX) }
    let pkt := { pkt with
      right := wrap_u8 (wrap_u32 (wrap_u32 (mag_right * GIP_GP_RUMBLE_MAX) + S16_MAX) / U16_MAX) }
    let timer :=
      if rumble.timer.isNone then
        some (wrap_ulong (rumble.last + GIP_GP_RUMBLE_DELAY))
      else rumble.timer
    (0, { rumble with pkt := pkt, timer := timer })

/-! ## Observations on a trace of input events -/

/-- The states reported for key `code`, in order. -/
def keyValues (code : KeyCode) (dev : input_dev) : List Bool :=
  dev.filterMap (fun e => match e with
    | InputEvent.key c p => if c = code then some p else none
    | _ => none)

/-- The values reported for axis `code`, in order. -/
def absValues (code : AbsCode) (dev : input_dev) : List Int :=
  dev.filterMap (fun e => match e with
    | InputEvent.abs c v => if c = code then some v else none
    | _ => none)

/-- The number of commits (`input_sync`) in a trace. -/
def syncCount (dev : input_dev) : Nat :=
  dev.count InputEvent.sync

/-- The ten logical buttons of the fixed frame. -/
def logical_buttons : List KeyCode :=
  [KeyCode.BTN_START, KeyCode.BTN_SELECT, KeyCode.BTN_A, KeyCode.BTN_B, KeyCode.BTN_X,
   KeyCode.BTN_Y, KeyCode.BTN_TL, KeyCode.BTN_TR, KeyCode.BTN_THUMBL, KeyCode.BTN_THUMBR]

/-- A 14-byte frame: buttons 0x0800 (DPAD_R), triggers 1 and 2, left stick (3, 1),
right stick (5, 0xffff). -/
def sample_frame : List u8 :=
  [0, 8, 1, 0, 2, 0, 3, 0, 1, 0, 5, 0, 255, 255]

/-! ## The packet handlers of the gamepad driver (`gip_gamepad_driver.ops`) -/

/-- The two kinds of packet the transport hands to the decoders of the gamepad driver. -/
inductive gip_gamepad_packet where
  | input (data : List u8)
  | firmware (data : List u8)
  deriving DecidableEq, Repr

/-- The handler table of `gip_gamepad_driver`: `.input = gip_gamepad_op_input` and
`.firmware = gip_gamepad_op_firmware`, each called with the client whose driver data is
the session's gamepad. -/
def gip_gamepad_driver_ops (gamepad : gip_gamepad) : gip_gamepad_packet → Int × input_dev
  | gip_gamepad_packet.input data => gip_gamepad_op_input gamepad data
  | gip_gamepad_packet.firmware data => gip_gamepad_op_firmware data

/-- The four paddle keys, by logical paddle index 0..3 (paddles 1..4). -/
def paddle_key (i : Fin 4) : KeyCode :=
  match i with
  | 0 => KeyCode.BTN_TRIGGER_HAPPY5
  | 1 => KeyCode.BTN_TRIGGER_HAPPY6
  | 2 => KeyCode.BTN_TRIGGER_HAPPY7
  | 3 => KeyCode.BTN_TRIGGER_HAPPY8

/-- The raw bit that drives logical paddle `i` on the Elite Series 2 layouts. -/
def paddle_bit_elite2 (i : Fin 4) : Fin 4 := i

/-- The raw bit that drives logical paddle `i` on the original Elite: 1, 3, 0, 2. -/
def paddle_bit_elite (i : Fin 4) : Fin 4 :=
  match i with
  | 0 => 1
  | 1 => 3
  | 2 => 0
  | 3 => 2

/-! ## Rumble: `gip_gamepad_send_rumble` and the timer -/

/-- The timer callback: hands the buffered command to `gip_send_rumble` and records the
send time. `jiffies` is the time of the call. Returns the packet sent and the state
afterwards. -/
def gip_gamepad_send_rumble (jiffies : Nat) (rumble : gip_gamepad_rumble) :
    gip_gamepad_pkt_rumble × gip_gamepad_rumble :=
  (rumble.pkt, { rumble with last := jiffies })

/-- Kernel timer expiry at time `jiffies`: a pending timer is detached (it is no longer
pending) and its callback `gip_gamepad_send_rumble` runs once; a timer that is not
pending does not fire. Returns the packets sent and the state afterwards. -/
def rumble_timer_fire (jiffies : Nat) (rumble : gip_gamepad_rumble) :
    List gip_gamepad_pkt_rumble × gip_gamepad_rumble :=
  match rumble.timer with
  | none => ([], rumble)
  | some _ =>
    let (pkt, rumble) := gip_gamepad_send_rumble jiffies { rumble with timer := none }
    ([pkt], rumble)

/-- A burst of effect updates, applied in order with no timer expiry in between. -/
def rumble_submit_burst (GIP_GP_RUMBLE_DELAY : Nat) (rumble : gip_gamepad_rumble)
    (effects : List ff_effect) : gip_gamepad_rumble :=
  effects.foldl (fun r e => (gip_gamepad_queue_rumble GIP_GP_RUMBLE_DELAY r e).2) rumble

/-! ## Constants and kernel helpers of `headset.c` -/

def GIP_HS_MAX_RETRIES : Int := 5

/-- The kernel errno `ENOSPC`. -/
def ENOSPC : Int := 28

def NSEC_PER_MSEC : Nat := 1000000

/-- Kernel `msecs_to_jiffies(m)` on a kernel built with `CONFIG_HZ = HZ`: the number of
timer ticks of 1/HZ s that cover `m` milliseconds, rounded up. -/
def msecs_to_jiffies (HZ m : Nat) : Nat := (m * HZ + 999) / 1000

/-- Kernel `ms_to_ktime(ms)`: `ms` milliseconds as a `ktime_t`, in nanoseconds. -/
def ms_to_ktime (ms : Nat) : Nat := ms * NSEC_PER_MSEC

/-- The macro `GIP_HS_POWER_ON_DELAY`, `msecs_to_jiffies(500)`. -/
def GIP_HS_POWER_ON_DELAY (HZ : Nat) : Nat := msecs_to_jiffies HZ 500

/-- The macro `GIP_HS_START_DELAY`, `msecs_to_jiffies(500)`. -/
def GIP_HS_START_DELAY (HZ : Nat) : Nat := msecs_to_jiffies HZ 500

/-- Return value of an hrtimer callback. -/
inductive hrtimer_restart where
  | HRTIMER_NORESTART
  | HRTIMER_RESTART
  deriving DecidableEq, Repr

/-- Power modes of the transport (`enum gip_power_mode`). -/
inductive gip_power_mode where
  | GIP_PWR_ON
  | GIP_PWR_SLEEP
  | GIP_PWR_OFF
  | GIP_PWR_RESET
  deriving DecidableEq, Repr

/-- Direction of a PCM substream. -/
inductive snd_pcm_stream_dir where
  | SNDRV_PCM_STREAM_PLAYBACK
  | SNDRV_PCM_STREAM_CAPTURE
  deriving DecidableEq, Repr

/-- The two hrtimers of `struct gip_headset`. -/
inductive headset_timer where
  | timer
  | start_audio_timer
  deriving DecidableEq, Repr

/-- The three deferred tasks of `struct gip_headset`. -/
inductive headset_work where
  | work_config
  | work_power_on
  | work_register
  deriving DecidableEq, Repr

/-- One call the headset driver makes on the transport, the kernel timers and work queues
or the sound core. A trace of these, in program order, models the effects of a handler. -/
inductive headset_call where
  | schedule_work_register
  | schedule_delayed_work_power_on (delay : Nat)
  | gip_set_power_mode (mode : gip_power_mode)
  | hrtimer_start (t : headset_timer) (time : Nat)
  | hrtimer_forward_now (t : headset_timer) (interval : Nat)
  | snd_pcm_period_elapsed (dir : snd_pcm_stream_dir)
  | gip_send_audio_samples (buffer : List u8)
  | gip_init_battery
  | gip_auth_start_handshake
  | cancel_work_sync (w : headset_work)
  | cancel_delayed_work_sync (w : headset_work)
  | hrtimer_cancel (t : headset_timer)
  | gip_disable_audio
  | snd_card_disconnect (card : Nat)
  | snd_card_free_when_closed (card : Nat)
  deriving DecidableEq, Repr

/-! ## Data model of the headset -/

/-- The part of `struct snd_pcm_runtime` the driver reads: the buffer `dma_area`, the
period size and the buffer size in bytes (`snd_pcm_lib_buffer_bytes`). -/
structure snd_pcm_runtime where
  dma_area : List u8
  period_size : Nat
  buffer_bytes : Nat
  deriving DecidableEq, Repr

/-- The part of `struct snd_pcm_substream` the driver reads; `running` is
`snd_pcm_running(sub)`. -/
structure snd_pcm_substream where
  stream : snd_pcm_stream_dir
  runtime : Option snd_pcm_runtime
  running : Bool
  deriving DecidableEq, Repr

/-- The cursor pair of one direction (`struct gip_headset_stream`). -/
structure gip_headset_stream where
  substream : Option snd_pcm_substream
  pointer : Nat
  period : Nat
  deriving DecidableEq, Repr

/-- The part of `struct gip_audio_config` the driver reads. -/
structure gip_audio_config where
  buffer_size : Nat
  deriving DecidableEq, Repr

/-- The part of `struct gip_client` the headset driver reads. -/
structure gip_client where
  id : Nat
  hardware : gip_hardware
  audio_config_in : gip_audio_config
  audio_config_out : gip_audio_config
  deriving DecidableEq, Repr

/-- The state of `struct gip_headset`. -/
structure gip_headset where
  client : gip_client
  chat_headset : Bool
  got_authenticated : Bool
  start_counter : Int
  got_initial_volume : Bool
  got_audio_packet : Bool
  buffer : List u8
  playback : gip_headset_stream
  capture : gip_headset_stream
  card : Option Nat
  deriving DecidableEq, Repr

/-! ## The ring buffers -/

/-- The unsigned subtraction `a - b` of two `size_t` values: it wraps below zero. -/
def size_sub (a b : Nat) : Nat :=
  if b ≤ a then a - b else a + 2 ^ 64 - b

/-- One call of `memcpy`, by the byte offsets into the destination and the source buffer
and the number of bytes. -/
structure memcpy_call where
  dest_off : Nat
  src_off : Nat
  n : Nat
  deriving DecidableEq, Repr

/-- The effect of `memcpy(dest + dest_off, src + src_off, n)` on the destination buffer. -/
def memcpy (dest : List u8) (dest_off : Nat) (src : List u8) (src_off n : Nat) : List u8 :=
  (List.range dest.length).map (fun j =>
    if dest_off ≤ j ∧ j < dest_off + n then src.getD (src_off + (j - dest_off)) 0
    else dest.getD j 0)

/-- The cursor update. `runtime` is `stream->substream->runtime`, which the callers have
checked. Returns the period-elapsed flag and the stream afterwards. -/
def gip_headset_advance_pointer (runtime : snd_pcm_runtime) (stream : gip_headset_stream)
    (len buf_size : Nat) : Bool × gip_headset_stream :=
  let period := runtime.period_size
  let stream := { stream with pointer := stream.pointer + len }
  let stream :=
    if stream.pointer ≥ buf_size then { stream with pointer := stream.pointer - buf_size }
    else stream
  let stream := { stream with period := stream.period + len }
  if stream.period ≥ period then
    (true, { stream with period := stream.period - period })
  else
    (false, stream)

/-- The playback copy out of the circular buffer `dma_area` into `data`. Returns the
period-elapsed flag, the stream afterwards, `data` afterwards and the `memcpy` calls made,
in order. -/
def gip_headset_copy_playback (runtime : snd_pcm_runtime) (stream : gip_headset_stream)
    (data : List u8) (len : Nat) :
    Bool × gip_headset_stream × List u8 × List memcpy_call :=
  let src := runtime.dma_area
  let buf_size := runtime.buffer_bytes
  let remaining := size_sub buf_size stream.pointer
  let (data, calls) :=
    if len ≤ remaining then
      (memcpy data 0 src stream.pointer len, [memcpy_call.mk 0 stream.pointer len])
    else
      let data := memcpy data 0 src stream.pointer remaining
      (memcpy data remaining src 0 (len - remaining),
        [memcpy_call.mk 0 stream.pointer remaining, memcpy_call.mk remaining 0 (len - remaining)])
  let (elapsed, stream) := gip_headset_advance_pointer runtime stream len buf_size
  (elapsed, stream, data, calls)

/-- The capture copy of `data` into the circular buffer `dma_area`. Returns the
period-elapsed flag, the stream afterwards, `dma_area` afterwards and the `memcpy` calls
made, in order. -/
def gip_headset_copy_capture (runtime : snd_pcm_runtime) (stream : gip_headset_stream)
    (data : List u8) (len : Nat) :
    Bool × gip_headset_stream × List u8 × List memcpy_call :=
  let dest := runtime.dma_area
  let buf_size := runtime.buffer_bytes
  let remaining := size_sub buf_size stream.pointer
  let (dest, calls) :=
    if len ≤ remaining then
      (memcpy dest stream.pointer data 0 len, [memcpy_call.mk stream.pointer 0 len])
    else
      let dest := memcpy dest stream.pointer data 0 remaining
      (memcpy dest 0 data remaining (len - remaining),
        [memcpy_call.mk stream.pointer 0 remaining, memcpy_call.mk 0 remaining (len - remaining)])
  let (elapsed, stream) := gip_headset_advance_pointer runtime stream len buf_size
  (elapsed, stream, dest, calls)

/-- A sequence of transfers on one stream: the number of period-elapsed signals and the
stream afterwards. -/
def advance_pointer_run (runtime : snd_pcm_runtime) (buf_size : Nat) :
    gip_headset_stream → List Nat → Nat × gip_headset_stream
  | stream, [] => (0, stream)
  | stream, len :: rest =>
    let (elapsed, stream) := gip_headset_advance_pointer runtime stream len buf_size
    let (count, stream) := advance_pointer_run runtime buf_size stream rest
    ((if elapsed then 1 else 0) + count, stream)

/-- Kernel `frames_to_bytes` for the only sample format of `gip_headset_pcm_hw`,
`SNDRV_PCM_FMTBIT_S16_LE`: a frame is two bytes per channel. -/
def frames_to_bytes (channels frames : Nat) : Nat :=
  frames * (2 * channels)

/-- The invariant of a stream's cursor pair against a buffer size and a period size. -/
def stream_inv (buf_size period_size : Nat) (stream : gip_headset_stream) : Prop :=
  stream.pointer < buf_size ∧ stream.period < period_size

instance (buf_size period_size : Nat) (stream : gip_headset_stream) :
    Decidable (stream_inv buf_size period_size stream) :=
  inferInstanceAs (Decidable (stream.pointer < buf_size ∧ stream.period < period_size))

/-! ## `gip_headset_pcm_trigger` -/

def SNDRV_PCM_TRIGGER_STOP : Int := 0
def SNDRV_PCM_TRIGGER_START : Int := 1

/-- The effect of `memset(buffer, 0, n)`. -/
def memset_zero (buffer : List u8) (n : Nat) : List u8 :=
  (List.range buffer.length).map (fun j => if j < n then 0 else buffer.getD j 0)

/-- The stream of `headset` that `sub` belongs to. -/
def headset_stream (headset : gip_headset) (dir : snd_pcm_stream_dir) : gip_headset_stream :=
  if dir = snd_pcm_stream_dir.SNDRV_PCM_STREAM_PLAYBACK then headset.playback
  else headset.capture

/-- Writing back the stream of `headset` that `sub` belongs to. -/
def headset_set_stream (headset : gip_headset) (dir : snd_pcm_stream_dir)
    (stream : gip_headset_stream) : gip_headset :=
  if dir = snd_pcm_stream_dir.SNDRV_PCM_STREAM_PLAYBACK then { headset with playback := stream }
  else { headset with capture := stream }

/-- The start/stop trigger: the return value and the headset afterwards. -/
def gip_headset_pcm_trigger (headset : gip_headset) (sub : snd_pcm_substream) (cmd : Int) :
    Int × gip_headset :=
  let stream := headset_stream headset sub.stream
  let stream := { stream with pointer := 0 }
  let stream := { stream with period := 0 }
  if cmd = SNDRV_PCM_TRIGGER_START then
    let stream := { stream with substream := some sub }
    (0, headset_set_stream headset sub.stream stream)
  else if cmd = SNDRV_PCM_TRIGGER_STOP then
    let stream := { stream with substream := none }
    let headset := headset_set_stream headset sub.stream stream
    if sub.stream = snd_pcm_stream_dir.SNDRV_PCM_STREAM_PLAYBACK then
      (0, { headset with
        buffer := memset_zero headset.buffer headset.client.audio_config_out.buffer_size })
    else
      (0, headset)
  else
    (-EINVAL, headset_set_stream headset sub.stream stream)

/-! ## The startup retry timer -/

/-- The retry timer callback. `_err` is the value `gip_set_power_mode` returns when it is
called; the callback only logs it. Returns the restart decision, the headset afterwards
and the calls made, in order. -/
def gip_headset_start_audio (HZ : Nat) (headset : gip_headset) (_err : Int) :
    hrtimer_restart × gip_headset × List headset_call :=
  let max_retries_reached :=
    if headset.start_counter > GIP_HS_MAX_RETRIES then true else false
  if headset.got_initial_volume ∨ headset.got_audio_packet ∨ max_retries_reached then
    (hrtimer_restart.HRTIMER_NORESTART, headset, [headset_call.schedule_work_register])
  else
    let headset := { headset with start_counter := headset.start_counter + 1 }
    (hrtimer_restart.HRTIMER_RESTART, headset,
      [headset_call.gip_set_power_mode gip_power_mode.GIP_PWR_ON,
       headset_call.hrtimer_forward_now headset_timer.start_audio_timer
         (ms_to_ktime (GIP_HS_START_DELAY HZ))])

/-- The audio-ready handler: the return value, the headset afterwards and the calls. -/
def gip_headset_op_audio_ready (HZ : Nat) (headset : gip_headset) :
    Int × gip_headset × List headset_call :=
  let headset := { headset with start_counter := 0 }
  (0, headset,
    [headset_call.hrtimer_start headset_timer.start_audio_timer 0,
     headset_call.schedule_delayed_work_power_on (GIP_HS_POWER_ON_DELAY HZ)])

/-- The volume-report handler. -/
def gip_headset_op_audio_volume (headset : gip_headset) (_vol_in _vol_out : u8) :
    Int × gip_headset :=
  (0, { headset with got_initial_volume := true })

/-- Successive expiries of the retry timer, one per entry of `errs` (the results of
`gip_set_power_mode`), for as long as the callback asks for a restart. Returns the headset
afterwards and, per tick, the restart decision and the calls made. -/
def start_audio_run (HZ : Nat) :
    gip_headset → List Int → gip_headset × List (hrtimer_restart × List headset_call)
  | headset, [] => (headset, [])
  | headset, err :: rest =>
    match gip_headset_start_audio HZ headset err with
    | (hrtimer_restart.HRTIMER_NORESTART, headset, calls) =>
      (headset, [(hrtimer_restart.HRTIMER_NORESTART, calls)])
    | (hrtimer_restart.HRTIMER_RESTART, headset, calls) =>
      let (headset, ticks) := start_audio_run HZ headset rest
      (headset, (hrtimer_restart.HRTIMER_RESTART, calls) :: ticks)

/-- The number of power-on commands in a trace of ticks. -/
def resend_count (ticks : List (hrtimer_restart × List headset_call)) : Nat :=
  (ticks.map (fun t =>
    t.2.count (headset_call.gip_set_power_mode gip_power_mode.GIP_PWR_ON))).sum

/-! ## The audio pump and the capture path -/

/-- The audio pump callback. `GIP_AUDIO_INTERVAL` is the protocol's audio interval in
milliseconds and `err` the value `gip_send_audio_samples` returns when it is called.
Returns the restart decision, the headset afterwards and the calls made, in order. -/
def gip_headset_send_samples (GIP_AUDIO_INTERVAL : Nat) (headset : gip_headset) (err : Int) :
    hrtimer_restart × gip_headset × List headset_call :=
  let cfg := headset.client.audio_config_out
  let (elapsed, headset) :=
    match headset.playback.substream with
    | none => (false, headset)
    | some sub =>
      match sub.runtime with
      | none => (false, headset)
      | some runtime =>
        if sub.running then
          let (elapsed, stream, buffer, _) :=
            gip_headset_copy_playback runtime headset.playback headset.buffer cfg.buffer_size
          (elapsed, { headset with playback := stream, buffer := buffer })
        else (false, headset)
  let calls : List headset_call :=
    if elapsed then
      [headset_call.snd_pcm_period_elapsed snd_pcm_stream_dir.SNDRV_PCM_STREAM_PLAYBACK]
    else []
  let forward :=
    headset_call.hrtimer_forward_now headset_timer.timer (ms_to_ktime GIP_AUDIO_INTERVAL)
  if headset.got_authenticated then
    let calls := calls ++ [headset_call.gip_send_audio_samples headset.buffer]
    if err ≠ 0 ∧ err ≠ -ENOSPC then
      (hrtimer_restart.HRTIMER_NORESTART, headset, calls)
    else
      (hrtimer_restart.HRTIMER_RESTART, headset, calls ++ [forward])
  else
    (hrtimer_restart.HRTIMER_RESTART, headset, calls ++ [forward])

/-- The audio-samples handler (capture): the return value, the headset afterwards and the
calls made. -/
def gip_headset_op_audio_samples (headset : gip_headset) (data : List u8) :
    Int × gip_headset × List headset_call :=
  let len := data.length
  let headset := { headset with got_audio_packet := true }
  match headset.capture.substream with
  | none => (0, headset, [])
  | some sub =>
    match sub.runtime with
    | none => (0, headset, [])
    | some runtime =>
      if sub.running then
        let (elapsed, stream, dma_area, _) :=
          gip_headset_copy_capture runtime headset.capture data len
        let sub := { sub with runtime := some { runtime with dma_area := dma_area } }
        let headset := { headset with capture := { stream with substream := some sub } }
        (0, headset,
          if elapsed then
            [headset_call.snd_pcm_period_elapsed snd_pcm_stream_dir.SNDRV_PCM_STREAM_CAPTURE]
          else [])
      else (0, headset, [])

/-- A headset right after probe: nothing received, no stream open. -/
def sample_headset : gip_headset :=
  { client := ⟨0, ⟨0x045e, 0x0111, 0⟩, ⟨4⟩, ⟨4⟩⟩,
    chat_headset := true,
    got_authenticated := false,
    start_counter := 0,
    got_initial_volume := false,
    got_audio_packet := false,
    buffer := [0, 0, 0, 0],
    playback := ⟨none, 0, 0⟩,
    capture := ⟨none, 0, 0⟩,
    card := none }

/-! ## `gip_gamepad_init_rumble` -/

/-- The rumble state of a session returned by `devm_kzalloc`: all bytes zero. -/
def rumble_zero : gip_gamepad_rumble :=
  ⟨0, none, ⟨0, 0, 0, 0, 0, 0, 0, 0, 0⟩⟩

/-- The rumble setup at session start. `jiffies` is the time of the call and `err` the
value `input_ff_create_memless` returns. `timer_setup` leaves the timer not pending.
Returns the return value, the rumble state afterwards and the packets handed to
`gip_send_rumble`. -/
def gip_gamepad_init_rumble (jiffies : Nat) (rumble : gip_gamepad_rumble) (err : Int) :
    Int × gip_gamepad_rumble × List gip_gamepad_pkt_rumble :=
  let rumble := { rumble with timer := none }
  let pkt := rumble.pkt
  let pkt := { pkt with
    motors := wrap_u8 (GIP_GP_MOTOR_R ||| GIP_GP_MOTOR_L ||| GIP_GP_MOTOR_RT ||| GIP_GP_MOTOR_LT) }
  let pkt := { pkt with duration := 0xff }
  let pkt := { pkt with «repeat» := 0xeb }
  let rumble := { rumble with pkt := pkt }
  let (sent, rumble) := gip_gamepad_send_rumble jiffies rumble
  (err, rumble, [sent])

/-! ## `gip_headset_power_on` and `gip_headset_remove` -/

/-- A vendor/product pair (`struct gip_vidpid`). -/
structure gip_vidpid where
  vendor : Nat
  product : Nat
  deriving DecidableEq, Repr

/-- The headsets that need authentication before they receive audio samples: Razer Kaira
Pro and LucidSound LS35X. -/
def GIP_HS_CHECK_AUTH_IDS : List gip_vidpid :=
  [⟨0x1532, 0x0a25⟩, ⟨0x2f12, 0x0023⟩]

/-- The loop of `gip_headset_power_on` over the table: the first entry that matches the
hardware clears `got_authenticated` and ends the loop. -/
def check_auth_ids (hardware : gip_hardware) : List gip_vidpid → Bool → Bool
  | [], got_authenticated => got_authenticated
  | id :: rest, got_authenticated =>
    if hardware.vendor = id.vendor ∧ hardware.product = id.product then false
    else check_auth_ids hardware rest got_authenticated

/-- The power-on task. `err_battery` and `_err_handshake` are the values that
`gip_init_battery` and `gip_auth_start_handshake` return when they are called; the latter
is only logged. Returns the headset afterwards and the calls made, in order. -/
def gip_headset_power_on (headset : gip_headset) (err_battery _err_handshake : Int) :
    gip_headset × List headset_call :=
  let headset := { headset with got_authenticated := true }
  let headset := { headset with
    got_authenticated :=
      check_auth_ids headset.client.hardware GIP_HS_CHECK_AUTH_IDS headset.got_authenticated }
  if headset.client.id ≠ 0 then
    (headset, [])
  else if err_battery ≠ 0 then
    (headset, [headset_call.gip_init_battery])
  else
    (headset, [headset_call.gip_init_battery, headset_call.gip_auth_start_handshake])

/-- The session teardown: the calls made, in order. -/
def gip_headset_remove (headset : gip_headset) : List headset_call :=
  let calls :=
    [headset_call.cancel_work_sync headset_work.work_config,
     headset_call.cancel_delayed_work_sync headset_work.work_power_on,
     headset_call.cancel_work_sync headset_work.work_register,
     headset_call.hrtimer_cancel headset_timer.timer,
     headset_call.hrtimer_cancel headset_timer.start_audio_timer,
     headset_call.gip_disable_audio]
  match headset.card with
  | some card =>
    calls ++ [headset_call.snd_card_disconnect card, headset_call.snd_card_free_when_closed card]
  | none => calls

/-! ## Observations on the startup retry run -/

/-- The time for which the retry timer was re-armed over a trace of ticks: the sum of the
intervals passed to `hrtimer_forward_now`, in nanoseconds. -/
def rearm_time (ticks : List (hrtimer_restart × List headset_call)) : Nat :=
  (ticks.map (fun t =>
    (t.2.map (fun c => match c with
      | headset_call.hrtimer_forward_now headset_timer.start_audio_timer interval => interval
      | _ => 0)).sum)).sum

/-- The number of ticks of a trace that restart the timer. -/
def restart_count (ticks : List (hrtimer_restart × List headset_call)) : Nat :=
  (ticks.filter (fun t => t.1 = hrtimer_restart.HRTIMER_RESTART)).length

/-! ## Auxiliary lemmas -/

theorem mask_ne_zero (n k : Nat) : (((n &&& BIT k : Nat) : Int) != 0) = n.testBit k := by
  unfold BIT
  rw [Nat.one_shiftLeft, Nat.and_two_pow]
  cases h : n.testBit k <;> simp

theorem byte_bne_zero (data : List u8) (i : Nat) :
    (((byteAt data i : Nat) : Int) != 0) = (byteAt data i != 0) := by
  cases h : byteAt data i with
  | zero => rfl
  | succ n => simp only [bne, Nat.cast_succ]; rfl
  
theorem report_mask (dev : input_dev) (code : KeyCode) (n k : Nat) :
    input_report_key dev code ((n &&& BIT k : Nat) : Int) =
      dev ++ [InputEvent.key code (n.testBit k)] := by
  unfold input_report_key
  rw [mask_ne_zero]

theorem report_byte (dev : input_dev) (code : KeyCode) (data : List u8) (i : Nat) :
    input_report_key dev code ((byteAt data i : Nat) : Int) =
      dev ++ [InputEvent.key code (byteAt data i != 0)] := by
  unfold input_report_key
  rw [byte_bne_zero]

theorem op_input_ret (gamepad : gip_gamepad) (data : List u8) :
    (gip_gamepad_op_input gamepad data).1 = 0 ↔
      14 ≤ data.length ∧ ¬ (gamepad.supports_share = true ∧ data.length < share_offset gamepad) := by
  unfold gip_gamepad_op_input
  simp only [sizeof_gip_gamepad_pkt_input]
  by_cases h : data.length < 7 * 2
  · simp [h, EINVAL]
  · by_cases h2 : gamepad.supports_share = true ∧ data.length < share_offset gamepad
    · simp [h, h2, EINVAL]
    · rw [if_neg h, if_neg h2]
      simp only [true_iff]
      exact ⟨by omega, h2⟩

theorem op_input_events (gamepad : gip_gamepad) (data : List u8)
    (h : (gip_gamepad_op_input gamepad data).1 = 0) :
    (gip_gamepad_op_input gamepad data).2 =
      (if gamepad.supports_share then
        [InputEvent.key KeyCode.KEY_RECORD
          (byteAt data (data.length - share_offset gamepad) != 0)] else []) ++
      [InputEvent.key KeyCode.BTN_START ((le16_to_cpu data 0).testBit 2),
       InputEvent.key KeyCode.BTN_SELECT ((le16_to_cpu data 0).testBit 3),
       InputEvent.key KeyCode.BTN_A ((le16_to_cpu data 0).testBit 4),
       InputEvent.key KeyCode.BTN_B ((le16_to_cpu data 0).testBit 5),
       InputEvent.key KeyCode.BTN_X ((le16_to_cpu data 0).testBit 6),
       InputEvent.key KeyCode.BTN_Y ((le16_to_cpu data 0).testBit 7),
       InputEvent.key KeyCode.BTN_TL ((le16_to_cpu data 0).testBit 12),
       InputEvent.key KeyCode.BTN_TR ((le16_to_cpu data 0).testBit 13),
       InputEvent.key KeyCode.BTN_THUMBL ((le16_to_cpu data 0).testBit 14),
       InputEvent.key KeyCode.BTN_THUMBR ((le16_to_cpu data 0).testBit 15)] ++
      (match select_paddles gamepad.paddle_support data with
        | (true, true, p) =>
          [InputEvent.key KeyCode.BTN_TRIGGER_HAPPY5 (p.testBit 1),
           InputEvent.key KeyCode.BTN_TRIGGER_HAPPY6 (p.testBit 3),
           InputEvent.key KeyCode.BTN_TRIGGER_HAPPY7 (p.testBit 0),
           InputEvent.key KeyCode.BTN_TRIGGER_HAPPY8 (p.testBit 2)]
        | (true, false, p) =>
          [InputEvent.key KeyCode.BTN_TRIGGER_HAPPY5 (p.testBit 0),
           InputEvent.key KeyCode.BTN_TRIGGER_HAPPY6 (p.testBit 1),
           InputEvent.key KeyCode.BTN_TRIGGER_HAPPY7 (p.testBit 2),
           InputEvent.key KeyCode.BTN_TRIGGER_HAPPY8 (p.testBit 3)]
        | (false, _, _) => []) ++
      [InputEvent.abs AbsCode.ABS_X (s16 (le16_to_cpu data 6)),
       InputEvent.abs AbsCode.ABS_RX (s16 (le16_to_cpu data 10)),
       InputEvent.abs AbsCode.ABS_Y (~~~ (s16 (le16_to_cpu data 8))),
       InputEvent.abs AbsCode.ABS_RY (~~~ (s16 (le16_to_cpu data 12))),
       InputEvent.abs AbsCode.ABS_Z (le16_to_cpu data 2 : Nat),
       InputEvent.abs AbsCode.ABS_RZ (le16_to_cpu data 4 : Nat),
       InputEvent.abs AbsCode.ABS_HAT0X
         (notnot (le16_to_cpu data 0 &&& GIP_GP_BTN_DPAD_R) -
           notnot (le16_to_cpu data 0 &&& GIP_GP_BTN_DPAD_L)),
       InputEvent.abs AbsCode.ABS_HAT0Y
         (notnot (le16_to_cpu data 0 &&& GIP_GP_BTN_DPAD_D) -
           notnot (le16_to_cpu data 0 &&& GIP_GP_BTN_DPAD_U)),
       InputEvent.sync] := by
  obtain ⟨h14, hsh⟩ := (op_input_ret gamepad data).1 h
  unfold gip_gamepad_op_input
  simp only [sizeof_gip_gamepad_pkt_input]
  rw [if_neg (by omega), if_neg hsh]
  rcases hp : select_paddles gamepad.paddle_support data with ⟨rp, s1, p⟩
  cases hs : gamepad.supports_share <;> cases rp <;> cases s1 <;>
    simp only [↓reduceIte, Bool.false_eq_true] <;>
    simp only [GIP_GP_BTN_MENU, GIP_GP_BTN_VIEW, GIP_GP_BTN_A, GIP_GP_BTN_B, GIP_GP_BTN_X,
      GIP_GP_BTN_Y, GIP_GP_BTN_BUMPER_L, GIP_GP_BTN_BUMPER_R, GIP_GP_BTN_STICK_L,
      GIP_GP_BTN_STICK_R, GIP_GP_BTN_P1, GIP_GP_BTN_P2, GIP_GP_BTN_P3, GIP_GP_BTN_P4,
      report_mask, report_byte, input_report_abs, input_sync,
      List.nil_append, List.cons_append, List.append_assoc]

theorem le16_lt (data : List u8) (off : Nat) : le16_to_cpu data off < 65536 := by
  unfold le16_to_cpu byteAt
  have h1 := (data.getD off 0).isLt
  have h2 := (data.getD (off + 1) 0).isLt
  omega

theorem s16_range (r : Nat) : -32768 ≤ s16 r ∧ s16 r ≤ 32767 := by
  unfold s16
  split <;> omega

theorem int_complement (x : Int) : -x - 1 = ~~~ x := by
  cases x with
  | ofNat n =>
    show -(n : Int) - 1 = Int.negSucc n
    rw [Int.negSucc_eq]
    ring
  | negSucc n =>
    show -(Int.negSucc n) - 1 = Int.ofNat n
    rw [Int.negSucc_eq]
    simp

theorem notnot_mask (n k : Nat) : notnot (n &&& BIT k) = if n.testBit k then 1 else 0 := by
  unfold notnot BIT
  rw [Nat.one_shiftLeft, Nat.and_two_pow]
  cases h : n.testBit k <;> simp

theorem op_input_rejected (gamepad : gip_gamepad) (data : List u8)
    (h : ¬ (14 ≤ data.length ∧
      ¬ (gamepad.supports_share = true ∧ data.length < share_offset gamepad))) :
    gip_gamepad_op_input gamepad data = (-EINVAL, []) := by
  unfold gip_gamepad_op_input
  simp only [sizeof_gip_gamepad_pkt_input]
  by_cases h14 : data.length < 7 * 2
  · rw [if_pos h14]
  · rw [if_neg h14]
    have hsh : gamepad.supports_share = true ∧ data.length < share_offset gamepad := by
      by_contra hc
      exact h ⟨by omega, hc⟩
    rw [if_pos hsh]

theorem share_offset_eq (gamepad : gip_gamepad) :
    share_offset gamepad = if gamepad.supports_dli = true then 26 else 18 := by
  unfold share_offset
  cases gamepad.supports_dli <;> rfl

theorem select_paddles_inband (gamepad : gip_gamepad) (data : List u8) (off : Nat)
    (hcap : (gamepad.paddle_support = PaddleCapability.PADDLE_ELITE2_4X ∧ off = 14) ∨
      (gamepad.paddle_support = PaddleCapability.PADDLE_ELITE2_510 ∧ off = 18))
    (hlen : off + 1 < data.length) :
    select_paddles gamepad.paddle_support data =
      (true, false, if byteAt data (off + 1) ≠ 0 then 0 else byteAt data off) := by
  unfold select_paddles
  rcases hcap with ⟨hc, ho⟩ | ⟨hc, ho⟩ <;> subst ho <;> rw [hc]
  · have h15 : data.length > 15 := by omega
    have h14 : data.length > 14 := by omega
    simp [h14, h15]
  · have h19 : data.length > 19 := by omega
    have h18 : data.length > 18 := by omega
    simp [h18, h19]

theorem rescale_eq (m : Nat) (h : m ≤ 65535) :
    wrap_u8 (wrap_u32 (wrap_u32 (wrap_u32 m * GIP_GP_RUMBLE_MAX) + S16_MAX) / U16_MAX)
      = (m * 100 + 32767) / 65535 := by
  unfold wrap_u8 wrap_u32 GIP_GP_RUMBLE_MAX S16_MAX U16_MAX
  have h1 : m % 2 ^ 32 = m := Nat.mod_eq_of_lt (by omega)
  have h2 : m * 100 % 2 ^ 32 = m * 100 := Nat.mod_eq_of_lt (by omega)
  have h3 : (m * 100 + 32767) % 2 ^ 32 = m * 100 + 32767 := Nat.mod_eq_of_lt (by omega)
  have h4 : (m * 100 + 32767) / 65535 % 2 ^ 8 = (m * 100 + 32767) / 65535 :=
    Nat.mod_eq_of_lt (by omega)
  rw [h1, h2, h3, h4]

theorem queue_rumble_pkt (delay : Nat) (rumble : gip_gamepad_rumble) (effect : ff_effect)
    (ht : effect.type = FF_RUMBLE)
    (hs : effect.strong_magnitude ≤ 65535) (hw : effect.weak_magnitude ≤ 65535) :
    (gip_gamepad_queue_rumble delay rumble effect).2.pkt.left
        = (effect.strong_magnitude * 100 + 32767) / 65535 ∧
      (gip_gamepad_queue_rumble delay rumble effect).2.pkt.right
        = (effect.weak_magnitude * 100 + 32767) / 65535 := by
  unfold gip_gamepad_queue_rumble
  simp only [ht, ne_eq, not_true_eq_false, if_false]
  exact ⟨rescale_eq _ hs, rescale_eq _ hw⟩

/-! ## The input decoder -/

/-- Claim C1: for every paddle capability and every combination of interface flags, a
packet shorter than 14 bytes is rejected with `-EINVAL` and no call is made on the input
device (no event, no commit). -/
theorem op_input_short_packet (gamepad : gip_gamepad) (data : List u8)
    (h : data.length < 14) :
    gip_gamepad_op_input gamepad data = (-EINVAL, []) := by
  unfold gip_gamepad_op_input
  simp [sizeof_gip_gamepad_pkt_input, h]

/-- Witness for claim C1: a 13-byte packet on an Elite 2 gamepad with both interfaces. -/
theorem op_input_short_packet_witness :
    (List.replicate 13 (0 : u8)).length < 14 ∧
      gip_gamepad_op_input ⟨true, true, PaddleCapability.PADDLE_ELITE2_510⟩
        (List.replicate 13 (0 : u8)) = (-EINVAL, []) :=
  ⟨by decide, op_input_short_packet _ _ (by decide)⟩

/-- Claim C2: for every accepted input packet, with `r` the raw little-endian field at
bytes 8-9 (resp. 12-13), `ABS_Y` (resp. `ABS_RY`) is reported once, as the bitwise
complement of `r` read as a signed 16-bit integer, that is `-(s16)r - 1`; the value lies in
-32768..32767 and raw 0x0001 is reported as -2. `ABS_X` and `ABS_RX` are reported as the
signed 16-bit value of bytes 6-7 and 10-11, unchanged. -/
theorem op_input_stick_axes (gamepad : gip_gamepad) (data : List u8)
    (h : (gip_gamepad_op_input gamepad data).1 = 0) :
    (absValues AbsCode.ABS_Y (gip_gamepad_op_input gamepad data).2
        = [-(s16 (le16_to_cpu data 8)) - 1] ∧
      absValues AbsCode.ABS_RY (gip_gamepad_op_input gamepad data).2
        = [-(s16 (le16_to_cpu data 12)) - 1]) ∧
    (-(s16 (le16_to_cpu data 8)) - 1 = ~~~ (s16 (le16_to_cpu data 8)) ∧
      -(s16 (le16_to_cpu data 12)) - 1 = ~~~ (s16 (le16_to_cpu data 12))) ∧
    (-32768 ≤ -(s16 (le16_to_cpu data 8)) - 1 ∧ -(s16 (le16_to_cpu data 8)) - 1 ≤ 32767 ∧
      -32768 ≤ -(s16 (le16_to_cpu data 12)) - 1 ∧ -(s16 (le16_to_cpu data 12)) - 1 ≤ 32767) ∧
    (le16_to_cpu data 8 = 1 →
      absValues AbsCode.ABS_Y (gip_gamepad_op_input gamepad data).2 = [-2]) ∧
    (le16_to_cpu data 12 = 1 →
      absValues AbsCode.ABS_RY (gip_gamepad_op_input gamepad data).2 = [-2]) ∧
    (absValues AbsCode.ABS_X (gip_gamepad_op_input gamepad data).2
        = [s16 (le16_to_cpu data 6)] ∧
      absValues AbsCode.ABS_RX (gip_gamepad_op_input gamepad data).2
        = [s16 (le16_to_cpu data 10)]) ∧
    (∀ off, s16 (le16_to_cpu data off) =
      if le16_to_cpu data off < 32768 then (le16_to_cpu data off : Int)
      else (le16_to_cpu data off : Int) - 65536) := by
  have hnot : ∀ x : Int, -x - 1 = ~~~ x := int_complement
  have hY : absValues AbsCode.ABS_Y (gip_gamepad_op_input gamepad data).2
      = [-(s16 (le16_to_cpu data 8)) - 1] := by
    rw [op_input_events gamepad data h, hnot]
    cases gamepad.supports_share <;>
      rcases select_paddles gamepad.paddle_support data with ⟨_ | _, _ | _, p⟩ <;>
      simp [absValues]
  have hRY : absValues AbsCode.ABS_RY (gip_gamepad_op_input gamepad data).2
      = [-(s16 (le16_to_cpu data 12)) - 1] := by
    rw [op_input_events gamepad data h, hnot]
    cases gamepad.supports_share <;>
      rcases select_paddles gamepad.paddle_support data with ⟨_ | _, _ | _, p⟩ <;>
      simp [absValues]
  have r8 := s16_range (le16_to_cpu data 8)
  have r12 := s16_range (le16_to_cpu data 12)
  refine ⟨⟨hY, hRY⟩, ⟨hnot _, hnot _⟩, ⟨by omega, by omega, by omega, by omega⟩, ?_, ?_, ?_, ?_⟩
  · intro h1
    rw [hY, h1]
    rfl
  · intro h1
    rw [hRY, h1]
    rfl
  · rw [op_input_events gamepad data h]
    constructor <;>
      cases gamepad.supports_share <;>
      rcases select_paddles gamepad.paddle_support data with ⟨_ | _, _ | _, p⟩ <;>
      simp [absValues]
  · intro off
    have hlt := le16_lt data off
    unfold s16
    rw [Nat.mod_eq_of_lt hlt]

/-- Witness for claim C2: the sample frame has raw left-stick Y 0x0001 and raw right-stick
Y 0xffff. -/
theorem op_input_stick_axes_witness :
    (gip_gamepad_op_input ⟨false, false, PaddleCapability.PADDLE_NONE⟩ sample_frame).1 = 0 ∧
      absValues AbsCode.ABS_Y
        (gip_gamepad_op_input ⟨false, false, PaddleCapability.PADDLE_NONE⟩ sample_frame).2
          = [-2] :=
  ⟨by decide,
   (op_input_stick_axes ⟨false, false, PaddleCapability.PADDLE_NONE⟩ sample_frame
      (by decide)).2.2.2.1 (by decide)⟩

/-- Claim C3: for every accepted input packet, `ABS_HAT0X` is reported once as
[bit 11 (DPAD_R)] - [bit 10 (DPAD_L)] and `ABS_HAT0Y` once as [bit 9 (DPAD_D)] -
[bit 8 (DPAD_U)] of the little-endian buttons word; each value is -1, 0 or 1; DPAD_R set
with DPAD_L clear gives +1 and both set gives 0. -/
theorem op_input_dpad (gamepad : gip_gamepad) (data : List u8)
    (h : (gip_gamepad_op_input gamepad data).1 = 0) :
    (absValues AbsCode.ABS_HAT0X (gip_gamepad_op_input gamepad data).2
        = [(if (le16_to_cpu data 0).testBit 11 then 1 else 0) -
            (if (le16_to_cpu data 0).testBit 10 then 1 else 0)] ∧
      absValues AbsCode.ABS_HAT0Y (gip_gamepad_op_input gamepad data).2
        = [(if (le16_to_cpu data 0).testBit 9 then 1 else 0) -
            (if (le16_to_cpu data 0).testBit 8 then 1 else 0)]) ∧
    (∀ v, v ∈ absValues AbsCode.ABS_HAT0X (gip_gamepad_op_input gamepad data).2 ∨
          v ∈ absValues AbsCode.ABS_HAT0Y (gip_gamepad_op_input gamepad data).2 →
        v = -1 ∨ v = 0 ∨ v = 1) ∧
    ((le16_to_cpu data 0).testBit 11 = true → (le16_to_cpu data 0).testBit 10 = false →
      absValues AbsCode.ABS_HAT0X (gip_gamepad_op_input gamepad data).2 = [1]) ∧
    ((le16_to_cpu data 0).testBit 11 = true → (le16_to_cpu data 0).testBit 10 = true →
      absValues AbsCode.ABS_HAT0X (gip_gamepad_op_input gamepad data).2 = [0]) := by
  have hX : absValues AbsCode.ABS_HAT0X (gip_gamepad_op_input gamepad data).2
        = [(if (le16_to_cpu data 0).testBit 11 then 1 else 0) -
            (if (le16_to_cpu data 0).testBit 10 then 1 else 0)] := by
    rw [op_input_events gamepad data h]
    simp only [GIP_GP_BTN_DPAD_R, GIP_GP_BTN_DPAD_L, GIP_GP_BTN_DPAD_D, GIP_GP_BTN_DPAD_U,
      notnot_mask]
    cases gamepad.supports_share <;>
      rcases select_paddles gamepad.paddle_support data with ⟨_ | _, _ | _, p⟩ <;>
      simp [absValues]
  have hY : absValues AbsCode.ABS_HAT0Y (gip_gamepad_op_input gamepad data).2
        = [(if (le16_to_cpu data 0).testBit 9 then 1 else 0) -
            (if (le16_to_cpu data 0).testBit 8 then 1 else 0)] := by
    rw [op_input_events gamepad data h]
    simp only [GIP_GP_BTN_DPAD_R, GIP_GP_BTN_DPAD_L, GIP_GP_BTN_DPAD_D, GIP_GP_BTN_DPAD_U,
      notnot_mask]
    cases gamepad.supports_share <;>
      rcases select_paddles gamepad.paddle_support data with ⟨_ | _, _ | _, p⟩ <;>
      simp [absValues]
  refine ⟨⟨hX, hY⟩, ?_, ?_, ?_⟩
  · intro v hv
    rw [hX, hY] at hv
    simp only [List.mem_singleton] at hv
    rcases hv with hv | hv <;> subst hv <;>
      split <;> split <;> simp
  · intro h11 h10
    rw [hX, h11, h10]
    rfl
  · intro h11 h10
    rw [hX, h11, h10]
    rfl

/-- Witness for claim C3: the sample frame has DPAD_R set and DPAD_L clear. -/
theorem op_input_dpad_witness :
    (gip_gamepad_op_input ⟨false, false, PaddleCapability.PADDLE_NONE⟩ sample_frame).1 = 0 ∧
      absValues AbsCode.ABS_HAT0X
        (gip_gamepad_op_input ⟨false, false, PaddleCapability.PADDLE_NONE⟩ sample_frame).2
          = [1] :=
  ⟨by decide,
   (op_input_dpad ⟨false, false, PaddleCapability.PADDLE_NONE⟩ sample_frame
      (by decide)).2.2.1 (by decide) (by decide)⟩

/-- Counterexample for claim C4 as stated: an early-firmware Elite 2 with the share
interface receives a 16-byte packet whose paddle byte (offset 14) is 0x0f and whose profile
byte (offset 15) is 1. The packet contains both bytes and the profile byte is nonzero, yet
the decoder rejects the packet (16 < 18, the share offset) and reports no paddle at all. -/
theorem op_input_paddle_override_rejected :
    15 < (sample_frame ++ [15, 1]).length ∧
      byteAt (sample_frame ++ [15, 1]) 15 ≠ 0 ∧
      gip_gamepad_op_input ⟨true, false, PaddleCapability.PADDLE_ELITE2_4X⟩
        (sample_frame ++ [15, 1]) = (-EINVAL, []) ∧
      keyValues KeyCode.BTN_TRIGGER_HAPPY5
        (gip_gamepad_op_input ⟨true, false, PaddleCapability.PADDLE_ELITE2_4X⟩
          (sample_frame ++ [15, 1])).2 ≠ [false] := by
  decide

/-- Claim C4, amended: for the in-band Elite 2 capabilities (early firmware: paddle byte at
offset 14, profile byte at 15; mid firmware: 18 and 19), whenever the packet is accepted,
contains both bytes and the profile byte is nonzero, each of the four paddles
(BTN_TRIGGER_HAPPY5..8) is reported once, as released, whatever the paddle byte holds; when
the profile byte is zero the paddles are reported from bits 0..3 of the paddle byte. -/
theorem op_input_paddle_override (gamepad : gip_gamepad) (data : List u8) (off : Nat)
    (hcap : (gamepad.paddle_support = PaddleCapability.PADDLE_ELITE2_4X ∧ off = 14) ∨
      (gamepad.paddle_support = PaddleCapability.PADDLE_ELITE2_510 ∧ off = 18))
    (hacc : (gip_gamepad_op_input gamepad data).1 = 0)
    (hlen : off + 1 < data.length) :
    (byteAt data (off + 1) ≠ 0 →
      keyValues KeyCode.BTN_TRIGGER_HAPPY5 (gip_gamepad_op_input gamepad data).2 = [false] ∧
      keyValues KeyCode.BTN_TRIGGER_HAPPY6 (gip_gamepad_op_input gamepad data).2 = [false] ∧
      keyValues KeyCode.BTN_TRIGGER_HAPPY7 (gip_gamepad_op_input gamepad data).2 = [false] ∧
      keyValues KeyCode.BTN_TRIGGER_HAPPY8 (gip_gamepad_op_input gamepad data).2 = [false]) ∧
    (byteAt data (off + 1) = 0 →
      keyValues KeyCode.BTN_TRIGGER_HAPPY5 (gip_gamepad_op_input gamepad data).2
        = [(byteAt data off).testBit 0] ∧
      keyValues KeyCode.BTN_TRIGGER_HAPPY6 (gip_gamepad_op_input gamepad data).2
        = [(byteAt data off).testBit 1] ∧
      keyValues KeyCode.BTN_TRIGGER_HAPPY7 (gip_gamepad_op_input gamepad data).2
        = [(byteAt data off).testBit 2] ∧
      keyValues KeyCode.BTN_TRIGGER_HAPPY8 (gip_gamepad_op_input gamepad data).2
        = [(byteAt data off).testBit 3]) := by
  have hsel := select_paddles_inband gamepad data off hcap hlen
  rw [op_input_events gamepad data hacc, hsel]
  constructor
  · intro hp
    rw [if_pos hp]
    cases gamepad.supports_share <;> simp [keyValues]
  · intro hp
    have hn : ¬ byteAt data (off + 1) ≠ 0 := fun hc => hc hp
    rw [if_neg hn]
    cases gamepad.supports_share <;> simp [keyValues]

/-- Witness for claim C4: a mid-firmware Elite 2, a 20-byte packet with paddle byte 0x0f
at offset 18 and profile byte 1 at offset 19. -/
theorem op_input_paddle_override_witness :
    (gip_gamepad_op_input ⟨true, false, PaddleCapability.PADDLE_ELITE2_510⟩
        (sample_frame ++ [0, 0, 0, 0, 15, 1])).1 = 0 ∧
      keyValues KeyCode.BTN_TRIGGER_HAPPY5
        (gip_gamepad_op_input ⟨true, false, PaddleCapability.PADDLE_ELITE2_510⟩
          (sample_frame ++ [0, 0, 0, 0, 15, 1])).2 = [false] :=
  ⟨by decide,
   ((op_input_paddle_override ⟨true, false, PaddleCapability.PADDLE_ELITE2_510⟩
      (sample_frame ++ [0, 0, 0, 0, 15, 1]) 18 (Or.inr ⟨rfl, rfl⟩) (by decide)
      (by decide)).1 (by decide)).1⟩

/-! ## The rumble rescaling -/

/-- Claim C5: for rumble effects with magnitudes in 0..65535, `gip_gamepad_queue_rumble`
stores into the left (resp. right) motor byte exactly `(m*100 + 32767) / 65535` of the
strong (resp. weak) magnitude `m`, a value in 0..100 that is non-decreasing in `m`; 0 maps
to 0, 32767 to 50 and 65535 to 100; the 32-bit arithmetic does not overflow and the byte
store does not truncate. -/
theorem queue_rumble_rescale (delay delay' : Nat) (rumble rumble' : gip_gamepad_rumble)
    (effect effect' : ff_effect)
    (ht : effect.type = FF_RUMBLE) (ht' : effect'.type = FF_RUMBLE)
    (hs : effect.strong_magnitude ≤ 65535) (hw : effect.weak_magnitude ≤ 65535)
    (hs' : effect'.strong_magnitude ≤ 65535) (hw' : effect'.weak_magnitude ≤ 65535) :
    ((gip_gamepad_queue_rumble delay rumble effect).2.pkt.left
        = (effect.strong_magnitude * 100 + 32767) / 65535 ∧
      (gip_gamepad_queue_rumble delay rumble effect).2.pkt.right
        = (effect.weak_magnitude * 100 + 32767) / 65535) ∧
    ((gip_gamepad_queue_rumble delay rumble effect).2.pkt.left ≤ 100 ∧
      (gip_gamepad_queue_rumble delay rumble effect).2.pkt.right ≤ 100) ∧
    ((effect.strong_magnitude ≤ effect'.strong_magnitude →
        (gip_gamepad_queue_rumble delay rumble effect).2.pkt.left
          ≤ (gip_gamepad_queue_rumble delay' rumble' effect').2.pkt.left) ∧
      (effect.weak_magnitude ≤ effect'.weak_magnitude →
        (gip_gamepad_queue_rumble delay rumble effect).2.pkt.right
          ≤ (gip_gamepad_queue_rumble delay' rumble' effect').2.pkt.right)) ∧
    ((effect.strong_magnitude = 0 →
        (gip_gamepad_queue_rumble delay rumble effect).2.pkt.left = 0) ∧
      (effect.strong_magnitude = 32767 →
        (gip_gamepad_queue_rumble delay rumble effect).2.pkt.left = 50) ∧
      (effect.strong_magnitude = 65535 →
        (gip_gamepad_queue_rumble delay rumble effect).2.pkt.left = 100) ∧
      (effect.weak_magnitude = 0 →
        (gip_gamepad_queue_rumble delay rumble effect).2.pkt.right = 0) ∧
      (effect.weak_magnitude = 32767 →
        (gip_gamepad_queue_rumble delay rumble effect).2.pkt.right = 50) ∧
      (effect.weak_magnitude = 65535 →
        (gip_gamepad_queue_rumble delay rumble effect).2.pkt.right = 100)) ∧
    (effect.strong_magnitude * 100 + 32767 < 2 ^ 32 ∧
      effect.weak_magnitude * 100 + 32767 < 2 ^ 32 ∧
      (effect.strong_magnitude * 100 + 32767) / 65535 < 2 ^ 8 ∧
      (effect.weak_magnitude * 100 + 32767) / 65535 < 2 ^ 8) := by
  obtain ⟨hl, hr⟩ := queue_rumble_pkt delay rumble effect ht hs hw
  obtain ⟨hl', hr'⟩ := queue_rumble_pkt delay' rumble' effect' ht' hs' hw'
  rw [hl, hr, hl', hr']
  refine ⟨⟨rfl, rfl⟩, ⟨by omega, by omega⟩, ⟨?_, ?_⟩, ⟨?_, ?_, ?_, ?_, ?_, ?_⟩,
    ⟨by norm_num; omega, by norm_num; omega, by norm_num; omega, by norm_num; omega⟩⟩
  · intro hle
    exact Nat.div_le_div_right (by omega)
  · intro hle
    exact Nat.div_le_div_right (by omega)
  all_goals
    intro hm
    rw [hm]

/-- Witness for claim C5: a rumble effect with strong magnitude 32767 and weak magnitude
65535, followed by one with both magnitudes at 65535. -/
theorem queue_rumble_rescale_witness :
    (gip_gamepad_queue_rumble 3 ⟨0, none, ⟨0, 15, 0, 0, 0, 0, 255, 0, 235⟩⟩
        ⟨FF_RUMBLE, 32767, 65535⟩).2.pkt.left = 50 ∧
      (gip_gamepad_queue_rumble 3 ⟨0, none, ⟨0, 15, 0, 0, 0, 0, 255, 0, 235⟩⟩
        ⟨FF_RUMBLE, 32767, 65535⟩).2.pkt.right = 100 :=
  ⟨(queue_rumble_rescale 3 3 ⟨0, none, ⟨0, 15, 0, 0, 0, 0, 255, 0, 235⟩⟩
      ⟨0, none, ⟨0, 15, 0, 0, 0, 0, 255, 0, 235⟩⟩
      ⟨FF_RUMBLE, 32767, 65535⟩ ⟨FF_RUMBLE, 65535, 65535⟩
      rfl rfl (by decide) (by decide) (by decide) (by decide)).2.2.2.1.2.1 rfl,
   (queue_rumble_rescale 3 3 ⟨0, none, ⟨0, 15, 0, 0, 0, 0, 255, 0, 235⟩⟩
      ⟨0, none, ⟨0, 15, 0, 0, 0, 0, 255, 0, 235⟩⟩
      ⟨FF_RUMBLE, 32767, 65535⟩ ⟨FF_RUMBLE, 65535, 65535⟩
      rfl rfl (by decide) (by decide) (by decide) (by decide)).2.2.2.1.2.2.2.2.2 rfl⟩

/-! ## The capability detector -/

/-- Claim C6: `gip_gamepad_query_paddles` is a total function of (vendor, product,
version). It yields `PADDLE_NONE` exactly when the vendor is not Microsoft (0x045e) or the
product is neither Elite (0x02e3) nor Elite Series 2 (0x0b00); `PADDLE_ELITE` for a
Microsoft product 0x02e3 at any version; and for a Microsoft product 0x0b00 the early
layout iff version <= 0x04FF, the mid layout iff 0x0500 <= version <= 0x050A, and the
status-packet layout iff version > 0x050A. -/
theorem query_paddles_spec (vendor product version : Nat) :
    (gip_gamepad_query_paddles ⟨vendor, product, version⟩ = PaddleCapability.PADDLE_NONE ↔
      (vendor ≠ 0x045e ∨ (product ≠ 0x02e3 ∧ product ≠ 0x0b00))) ∧
    (vendor = 0x045e → product = 0x02e3 →
      gip_gamepad_query_paddles ⟨vendor, product, version⟩ = PaddleCapability.PADDLE_ELITE) ∧
    (vendor = 0x045e → product = 0x0b00 →
      (gip_gamepad_query_paddles ⟨vendor, product, version⟩
          = PaddleCapability.PADDLE_ELITE2_4X ↔ version ≤ 0x04FF) ∧
      (gip_gamepad_query_paddles ⟨vendor, product, version⟩
          = PaddleCapability.PADDLE_ELITE2_510 ↔ 0x0500 ≤ version ∧ version ≤ 0x050A) ∧
      (gip_gamepad_query_paddles ⟨vendor, product, version⟩
          = PaddleCapability.PADDLE_ELITE2_511 ↔ version > 0x050A)) := by
  unfold gip_gamepad_query_paddles GIP_VENDOR_MICROSOFT GIP_PRODUCT_ELITE
    GIP_PRODUCT_ELITE_SERIES_2 GIP_ELITE_SERIES_2_4X_FIRMWARE GIP_ELITE_SERIES_2_510_FIRMWARE
  simp only []
  refine ⟨?_, ?_, ?_⟩
  · split_ifs <;> simp <;> omega
  · intro hv hp
    subst hv hp
    simp
  · intro hv hp
    subst hv hp
    refine ⟨?_, ?_, ?_⟩ <;> split_ifs <;> simp <;> omega

/-- Witness for claim C6: a Microsoft Elite Series 2 at firmware 0x0500 and at 0x050B. -/
theorem query_paddles_spec_witness :
    gip_gamepad_query_paddles ⟨0x045e, 0x0b00, 0x0500⟩ = PaddleCapability.PADDLE_ELITE2_510 ∧
      gip_gamepad_query_paddles ⟨0x045e, 0x0b00, 0x050B⟩
        = PaddleCapability.PADDLE_ELITE2_511 :=
  ⟨((query_paddles_spec 0x045e 0x0b00 0x0500).2.2 rfl rfl).2.1.2 ⟨by decide, by decide⟩,
   ((query_paddles_spec 0x045e 0x0b00 0x050B).2.2 rfl rfl).2.2.2 (by decide)⟩

/-! ## The share button -/

/-- Counterexample for claim C7 as stated: with the share interface present, the 14-byte
sample frame (at least 14 bytes, shorter than the share offset 18) is not decoded: the
decoder returns `-EINVAL`, a nonzero value, and makes no call on the input device. -/
theorem op_input_short_share_not_skipped :
    14 ≤ sample_frame.length ∧ sample_frame.length < 18 ∧
      (gip_gamepad_op_input ⟨true, false, PaddleCapability.PADDLE_NONE⟩ sample_frame).1 ≠ 0 ∧
      gip_gamepad_op_input ⟨true, false, PaddleCapability.PADDLE_NONE⟩ sample_frame
        = (-EINVAL, []) := by
  decide

/-- Claim C7, amended: when `supports_share` is set and the packet is at least 14 bytes
long but shorter than the share offset (18, or 26 when `supports_dli` is set),
`gip_gamepad_op_input` rejects the whole packet: it returns `-EINVAL` and reports no
button, no axis and no commit. -/
theorem op_input_short_share_rejected (gamepad : gip_gamepad) (data : List u8)
    (hs : gamepad.supports_share = true) (_h14 : 14 ≤ data.length)
    (hlt : data.length < (if gamepad.supports_dli = true then 26 else 18)) :
    gip_gamepad_op_input gamepad data = (-EINVAL, []) := by
  apply op_input_rejected
  rw [share_offset_eq]
  intro hc
  exact hc.2 ⟨hs, hlt⟩

/-- Witness for claim C7: a 25-byte packet with both the share and the local-interval
interfaces (share offset 26). -/
theorem op_input_short_share_rejected_witness :
    14 ≤ (List.replicate 25 (1 : u8)).length ∧ (List.replicate 25 (1 : u8)).length < 26 ∧
      gip_gamepad_op_input ⟨true, true, PaddleCapability.PADDLE_ELITE⟩
        (List.replicate 25 (1 : u8)) = (-EINVAL, []) :=
  ⟨by decide, by decide,
   op_input_short_share_rejected ⟨true, true, PaddleCapability.PADDLE_ELITE⟩
     (List.replicate 25 (1 : u8)) rfl (by decide) (by decide)⟩

/-- Claim C8: when `supports_share` is set and the packet length `len` is at least the
share offset (18, or 26 when `supports_dli` is also set), the packet is accepted and the
share button (KEY_RECORD) is reported once, pressed iff the byte at index `len - 18`
(resp. `len - 26`) is nonzero; that index is inside the packet. When `supports_share` is
clear, no share event is emitted. -/
theorem op_input_share (gamepad : gip_gamepad) (data : List u8) :
    (gamepad.supports_share = true →
      (if gamepad.supports_dli = true then 26 else 18) ≤ data.length →
      (gip_gamepad_op_input gamepad data).1 = 0 ∧
      keyValues KeyCode.KEY_RECORD (gip_gamepad_op_input gamepad data).2
        = [byteAt data (data.length - (if gamepad.supports_dli = true then 26 else 18)) != 0] ∧
      data.length - (if gamepad.supports_dli = true then 26 else 18) < data.length) ∧
    (gamepad.supports_share = false →
      keyValues KeyCode.KEY_RECORD (gip_gamepad_op_input gamepad data).2 = []) := by
  constructor
  · intro hs hlen
    have hoff := share_offset_eq gamepad
    have hacc : (gip_gamepad_op_input gamepad data).1 = 0 := by
      rw [op_input_ret, hoff]
      refine ⟨?_, fun hc => ?_⟩
      · split at hlen <;> omega
      · omega
    refine ⟨hacc, ?_, ?_⟩
    · rw [op_input_events gamepad data hacc, hs, hoff]
      rcases select_paddles gamepad.paddle_support data with ⟨_ | _, _ | _, p⟩ <;>
        simp [keyValues]
    · split at hlen <;> split <;> omega
  · intro hs
    by_cases hacc : (gip_gamepad_op_input gamepad data).1 = 0
    · rw [op_input_events gamepad data hacc, hs]
      rcases select_paddles gamepad.paddle_support data with ⟨_ | _, _ | _, p⟩ <;>
        simp [keyValues]
    · rw [op_input_ret] at hacc
      rw [op_input_rejected gamepad data hacc]
      rfl

/-- Witness for claim C8: a 26-byte packet of ones with both interfaces; the share byte is
the byte at index 0. -/
theorem op_input_share_witness :
    keyValues KeyCode.KEY_RECORD
        (gip_gamepad_op_input ⟨true, true, PaddleCapability.PADDLE_NONE⟩
          (List.replicate 26 (1 : u8))).2 = [true] ∧
      keyValues KeyCode.KEY_RECORD
        (gip_gamepad_op_input ⟨false, true, PaddleCapability.PADDLE_NONE⟩
          (List.replicate 26 (1 : u8))).2 = [] :=
  ⟨((op_input_share ⟨true, true, PaddleCapability.PADDLE_NONE⟩
      (List.replicate 26 (1 : u8))).1 rfl (by decide)).2.1,
   (op_input_share ⟨false, true, PaddleCapability.PADDLE_NONE⟩
      (List.replicate 26 (1 : u8))).2 rfl⟩

/-! ## Complete batches -/

/-- Claim C9: every successful `gip_gamepad_op_input` reports each of the ten logical
buttons, each of the four stick axes, the two trigger axes and the two D-pad axes exactly
once, and then exactly one commit, which is the last call of the batch; every rejected
`gip_gamepad_op_input` (also one rejected by the share-offset length check) makes no call
on the input device at all. -/
theorem op_input_batch (gamepad : gip_gamepad) (data : List u8) :
    ((gip_gamepad_op_input gamepad data).1 = 0 →
      (∀ code, code ∈ logical_buttons →
        (keyValues code (gip_gamepad_op_input gamepad data).2).length = 1) ∧
      (∀ axis : AbsCode, (absValues axis (gip_gamepad_op_input gamepad data).2).length = 1) ∧
      syncCount (gip_gamepad_op_input gamepad data).2 = 1 ∧
      (gip_gamepad_op_input gamepad data).2.getLast? = some InputEvent.sync) ∧
    ((gip_gamepad_op_input gamepad data).1 ≠ 0 →
      (gip_gamepad_op_input gamepad data).2 = []) := by
  constructor
  · intro hacc
    rw [op_input_events gamepad data hacc]
    refine ⟨?_, ?_, ?_, ?_⟩
    · intro code hcode
      simp only [logical_buttons, List.mem_cons, List.mem_singleton, List.not_mem_nil,
        or_false] at hcode
      rcases hcode with h | h | h | h | h | h | h | h | h | h <;> subst h <;>
        cases gamepad.supports_share <;>
        rcases select_paddles gamepad.paddle_support data with ⟨_ | _, _ | _, p⟩ <;>
        simp [keyValues]
    · intro axis
      cases axis <;>
        cases gamepad.supports_share <;>
        rcases select_paddles gamepad.paddle_support data with ⟨_ | _, _ | _, p⟩ <;>
        simp [absValues]
    · cases gamepad.supports_share <;>
        rcases select_paddles gamepad.paddle_support data with ⟨_ | _, _ | _, p⟩ <;>
        simp [syncCount]
    · cases gamepad.supports_share <;>
        rcases select_paddles gamepad.paddle_support data with ⟨_ | _, _ | _, p⟩ <;>
        simp
  · intro hrej
    rw [Ne, op_input_ret] at hrej
    rw [op_input_rejected gamepad data hrej]

/-- Witness for claim C9: the sample frame is accepted without the share interface and
rejected with it. -/
theorem op_input_batch_witness :
    (syncCount
        (gip_gamepad_op_input ⟨false, false, PaddleCapability.PADDLE_NONE⟩ sample_frame).2 = 1 ∧
      (gip_gamepad_op_input ⟨false, false, PaddleCapability.PADDLE_NONE⟩
        sample_frame).2.getLast? = some InputEvent.sync) ∧
    (gip_gamepad_op_input ⟨true, false, PaddleCapability.PADDLE_NONE⟩ sample_frame).2 = [] :=
  ⟨((op_input_batch ⟨false, false, PaddleCapability.PADDLE_NONE⟩ sample_frame).1
      (by decide)).2.2,
   (op_input_batch ⟨true, false, PaddleCapability.PADDLE_NONE⟩ sample_frame).2 (by decide)⟩

/-! ## The firmware-status decoder -/

/-- Claim C10: `gip_gamepad_op_firmware` rejects every packet shorter than 16 bytes with
`-EINVAL` and no call on the input device; for every packet of at least 16 bytes it
returns 0 and reports paddles 1..4 (BTN_TRIGGER_HAPPY5..8), pressed iff bits 0..3 of byte
14 are set, followed by exactly one commit; the result does not depend on the profile byte
at offset 15. -/
theorem op_firmware_spec (data : List u8) :
    (data.length < 16 → gip_gamepad_op_firmware data = (-EINVAL, [])) ∧
    (16 ≤ data.length →
      gip_gamepad_op_firmware data =
        (0, [InputEvent.key KeyCode.BTN_TRIGGER_HAPPY5 ((byteAt data 14).testBit 0),
             InputEvent.key KeyCode.BTN_TRIGGER_HAPPY6 ((byteAt data 14).testBit 1),
             InputEvent.key KeyCode.BTN_TRIGGER_HAPPY7 ((byteAt data 14).testBit 2),
             InputEvent.key KeyCode.BTN_TRIGGER_HAPPY8 ((byteAt data 14).testBit 3),
             InputEvent.sync]) ∧
      ∀ profile : u8, gip_gamepad_op_firmware (data.set 15 profile)
        = gip_gamepad_op_firmware data) := by
  have hform : ∀ d : List u8, 16 ≤ d.length →
      gip_gamepad_op_firmware d =
        (0, [InputEvent.key KeyCode.BTN_TRIGGER_HAPPY5 ((byteAt d 14).testBit 0),
             InputEvent.key KeyCode.BTN_TRIGGER_HAPPY6 ((byteAt d 14).testBit 1),
             InputEvent.key KeyCode.BTN_TRIGGER_HAPPY7 ((byteAt d 14).testBit 2),
             InputEvent.key KeyCode.BTN_TRIGGER_HAPPY8 ((byteAt d 14).testBit 3),
             InputEvent.sync]) := by
    intro d hd
    unfold gip_gamepad_op_firmware
    simp only [sizeof_gip_gamepad_pkt_firmware]
    rw [if_neg (by omega)]
    simp only [GIP_GP_BTN_P1, GIP_GP_BTN_P2, GIP_GP_BTN_P3, GIP_GP_BTN_P4, report_mask,
      input_sync, List.nil_append, List.cons_append, List.append_assoc]
  constructor
  · intro hlt
    unfold gip_gamepad_op_firmware
    simp only [sizeof_gip_gamepad_pkt_firmware]
    rw [if_pos (by omega)]
  · intro hge
    refine ⟨hform data hge, fun profile => ?_⟩
    rw [hform data hge, hform (data.set 15 profile) (by simpa using hge)]
    have hb : byteAt (data.set 15 profile) 14 = byteAt data 14 := by
      unfold byteAt
      simp [List.getD_eq_getElem?_getD, List.getElem?_set]
    rw [hb]

/-- Witness for claim C10: a 15-byte packet, and a 16-byte packet whose byte 14 is 0x05
with profile byte 3. -/
theorem op_firmware_spec_witness :
    gip_gamepad_op_firmware (List.replicate 15 (1 : u8)) = (-EINVAL, []) ∧
      gip_gamepad_op_firmware (List.replicate 14 (0 : u8) ++ [5, 3]) =
        (0, [InputEvent.key KeyCode.BTN_TRIGGER_HAPPY5 true,
             InputEvent.key KeyCode.BTN_TRIGGER_HAPPY6 false,
             InputEvent.key KeyCode.BTN_TRIGGER_HAPPY7 true,
             InputEvent.key KeyCode.BTN_TRIGGER_HAPPY8 false,
             InputEvent.sync]) :=
  ⟨(op_firmware_spec (List.replicate 15 (1 : u8))).1 (by decide),
   ((op_firmware_spec (List.replicate 14 (0 : u8) ++ [5, 3])).2 (by decide)).1⟩


/-! ## Firmware-status packets and the paddle capability -/

/-- Counterexample for claim C11 as stated: on a mid-firmware Elite 2 session
(`PADDLE_ELITE2_510`, not the status-packet layout) a 16-byte firmware-status packet whose
byte 14 is 0x05 yields paddle events: paddles 1 and 3 are reported pressed. -/
theorem firmware_paddles_on_mid_layout :
    gip_gamepad_driver_ops ⟨false, false, PaddleCapability.PADDLE_ELITE2_510⟩
        (gip_gamepad_packet.firmware (List.replicate 14 (0 : u8) ++ [5, 3])) =
      (0, [InputEvent.key KeyCode.BTN_TRIGGER_HAPPY5 true,
           InputEvent.key KeyCode.BTN_TRIGGER_HAPPY6 false,
           InputEvent.key KeyCode.BTN_TRIGGER_HAPPY7 true,
           InputEvent.key KeyCode.BTN_TRIGGER_HAPPY8 false,
           InputEvent.sync]) := by
  decide

/-- Claim C11, amended: the firmware-status handler does not consult the session's paddle
capability. For every capability (None, EliteV1, early, mid and post-5.10 alike) a
firmware-status packet of at least 16 bytes yields the four paddle events from bits 0..3
of byte 14 and one commit, the same result as on a post-5.10 session. -/
theorem firmware_paddles_any_capability (gamepad : gip_gamepad) (data : List u8)
    (hlen : 16 ≤ data.length) :
    gip_gamepad_driver_ops gamepad (gip_gamepad_packet.firmware data) =
        (0, [InputEvent.key KeyCode.BTN_TRIGGER_HAPPY5 ((byteAt data 14).testBit 0),
             InputEvent.key KeyCode.BTN_TRIGGER_HAPPY6 ((byteAt data 14).testBit 1),
             InputEvent.key KeyCode.BTN_TRIGGER_HAPPY7 ((byteAt data 14).testBit 2),
             InputEvent.key KeyCode.BTN_TRIGGER_HAPPY8 ((byteAt data 14).testBit 3),
             InputEvent.sync]) ∧
      gip_gamepad_driver_ops gamepad (gip_gamepad_packet.firmware data) =
        gip_gamepad_driver_ops
          ⟨gamepad.supports_share, gamepad.supports_dli, PaddleCapability.PADDLE_ELITE2_511⟩
          (gip_gamepad_packet.firmware data) := by
  refine ⟨?_, rfl⟩
  show gip_gamepad_op_firmware data = _
  unfold gip_gamepad_op_firmware
  simp only [sizeof_gip_gamepad_pkt_firmware]
  rw [if_neg (by omega)]
  simp only [GIP_GP_BTN_P1, GIP_GP_BTN_P2, GIP_GP_BTN_P3, GIP_GP_BTN_P4, report_mask,
    input_sync, List.nil_append, List.cons_append, List.append_assoc]

/-- Witness for claim C11: an original Elite session and a 16-byte firmware-status packet
with byte 14 equal to 0x0a. -/
theorem firmware_paddles_any_capability_witness :
    gip_gamepad_driver_ops ⟨true, false, PaddleCapability.PADDLE_ELITE⟩
        (gip_gamepad_packet.firmware (List.replicate 14 (0 : u8) ++ [10, 0])) =
      (0, [InputEvent.key KeyCode.BTN_TRIGGER_HAPPY5 false,
           InputEvent.key KeyCode.BTN_TRIGGER_HAPPY6 true,
           InputEvent.key KeyCode.BTN_TRIGGER_HAPPY7 false,
           InputEvent.key KeyCode.BTN_TRIGGER_HAPPY8 true,
           InputEvent.sync]) :=
  (firmware_paddles_any_capability ⟨true, false, PaddleCapability.PADDLE_ELITE⟩
    (List.replicate 14 (0 : u8) ++ [10, 0]) (by decide)).1

/-! ## The startup retry timer -/

/-- One tick of the retry timer, for every kernel tick rate, headset state and result of
the power-on command: the callback schedules the register work and does not restart iff
`got_initial_volume`, `got_audio_packet` or `start_counter > 5`; otherwise it increments
`start_counter` by one, issues one power-on command and restarts with the interval
`ms_to_ktime(GIP_HS_START_DELAY)`. -/
theorem start_audio_tick (HZ : Nat) (headset : gip_headset) (err : Int) :
    ((headset.got_initial_volume = true ∨ headset.got_audio_packet = true ∨
        headset.start_counter > 5) →
      gip_headset_start_audio HZ headset err =
        (hrtimer_restart.HRTIMER_NORESTART, headset, [headset_call.schedule_work_register])) ∧
    (¬ (headset.got_initial_volume = true ∨ headset.got_audio_packet = true ∨
        headset.start_counter > 5) →
      gip_headset_start_audio HZ headset err =
        (hrtimer_restart.HRTIMER_RESTART,
          { headset with start_counter := headset.start_counter + 1 },
          [headset_call.gip_set_power_mode gip_power_mode.GIP_PWR_ON,
           headset_call.hrtimer_forward_now headset_timer.start_audio_timer
             (msecs_to_jiffies HZ 500 * 1000000)])) := by
  unfold gip_headset_start_audio GIP_HS_MAX_RETRIES GIP_HS_START_DELAY ms_to_ktime NSEC_PER_MSEC
  by_cases hc : headset.start_counter > 5
  · simp [hc]
  · cases hv : headset.got_initial_volume <;> cases ha : headset.got_audio_packet <;>
      simp [hc]

/-- Claim C12, the code at the failing input: after the audio-ready signal
(`start_counter = 0`) and with no volume report and no audio packet, each of the first six
ticks restarts the timer and resends the power-on command, six resends in all, and it is
the seventh tick that schedules the register work and stops the timer. -/
theorem start_audio_six_resends :
    (start_audio_run 1000 (gip_headset_op_audio_ready 1000 sample_headset).2.1
        [0, 0, 0, 0, 0, 0]).2.map (fun t => t.1) =
      [hrtimer_restart.HRTIMER_RESTART, hrtimer_restart.HRTIMER_RESTART,
       hrtimer_restart.HRTIMER_RESTART, hrtimer_restart.HRTIMER_RESTART,
       hrtimer_restart.HRTIMER_RESTART, hrtimer_restart.HRTIMER_RESTART] ∧
    resend_count (start_audio_run 1000 (gip_headset_op_audio_ready 1000 sample_headset).2.1
        [0, 0, 0, 0, 0, 0]).2 = 6 ∧
    (start_audio_run 1000 (gip_headset_op_audio_ready 1000 sample_headset).2.1
        [0, 0, 0, 0, 0, 0]).1.start_counter = 6 ∧
    (start_audio_run 1000 (gip_headset_op_audio_ready 1000 sample_headset).2.1
        [0, 0, 0, 0, 0, 0, 0]).2.getLast? =
      some (hrtimer_restart.HRTIMER_NORESTART, [headset_call.schedule_work_register]) ∧
    resend_count (start_audio_run 1000 (gip_headset_op_audio_ready 1000 sample_headset).2.1
        [0, 0, 0, 0, 0, 0, 0]).2 = 6 := by
  decide

/-- Claim C13, the code at the failing input: on a kernel built with `CONFIG_HZ = 250`
a tick that does not transition increments `start_counter`, issues one power-on command
and restarts with the interval `ms_to_ktime(msecs_to_jiffies(500))`, which is 125 ms and
not 500 ms; the interval is 500 ms on a kernel with `CONFIG_HZ = 1000`. -/
theorem start_audio_rearm_interval :
    gip_headset_start_audio 250 sample_headset 0 =
      (hrtimer_restart.HRTIMER_RESTART, { sample_headset with start_counter := 1 },
        [headset_call.gip_set_power_mode gip_power_mode.GIP_PWR_ON,
         headset_call.hrtimer_forward_now headset_timer.start_audio_timer
           (ms_to_ktime 125)]) ∧
    ms_to_ktime 125 ≠ ms_to_ktime 500 ∧
    gip_headset_start_audio 1000 sample_headset 0 =
      (hrtimer_restart.HRTIMER_RESTART, { sample_headset with start_counter := 1 },
        [headset_call.gip_set_power_mode gip_power_mode.GIP_PWR_ON,
         headset_call.hrtimer_forward_now headset_timer.start_audio_timer
           (ms_to_ktime 500)]) := by
  decide

/-! ## The ring buffers -/

theorem length_memcpy (dest : List u8) (dest_off : Nat) (src : List u8) (src_off n : Nat) :
    (memcpy dest dest_off src src_off n).length = dest.length := by
  simp [memcpy]

theorem getD_memcpy (dest : List u8) (dest_off : Nat) (src : List u8) (src_off n j : Nat)
    (hj : j < dest.length) :
    (memcpy dest dest_off src src_off n).getD j 0 =
      if dest_off ≤ j ∧ j < dest_off + n then src.getD (src_off + (j - dest_off)) 0
      else dest.getD j 0 := by
  unfold memcpy
  rw [List.getD_eq_getElem?_getD, List.getElem?_map, List.getElem?_range hj]
  rfl

theorem advance_pointer_eq (runtime : snd_pcm_runtime) (stream : gip_headset_stream)
    (len buf_size : Nat) :
    gip_headset_advance_pointer runtime stream len buf_size =
      (decide (runtime.period_size ≤ stream.period + len),
        { substream := stream.substream,
          pointer := if buf_size ≤ stream.pointer + len then stream.pointer + len - buf_size
            else stream.pointer + len,
          period := if runtime.period_size ≤ stream.period + len
            then stream.period + len - runtime.period_size else stream.period + len }) := by
  unfold gip_headset_advance_pointer
  by_cases h1 : buf_size ≤ stream.pointer + len <;>
    by_cases h2 : runtime.period_size ≤ stream.period + len <;>
    simp [h1, h2]

theorem wrap_once (a b : Nat) (h : a < 2 * b) :
    (if b ≤ a then a - b else a) = a % b := by
  split
  · rw [Nat.mod_eq_sub_mod (by omega), Nat.mod_eq_of_lt (by omega)]
  · rw [Nat.mod_eq_of_lt (by omega)]

/-- Claim C14: for a circular playback buffer of size `buf_size > 0`, a cursor
`pointer < buf_size` and a copy length `len <= buf_size` (into an output buffer of at
least `len` bytes), `gip_headset_copy_playback` writes `out[i] = src[(pointer + i) mod
buf_size]` for every `i < len`; it does so as one copy when `len <= buf_size - pointer`
and otherwise as a tail copy of `buf_size - pointer` bytes followed by a head copy of
`len - (buf_size - pointer)` bytes; it leaves `pointer = (pointer + len) mod buf_size`.
With `buf_size = 100`, `pointer = 90`, `len = 20` this is a 10-byte tail copy, a 10-byte
head copy and `pointer = 10`. -/
theorem copy_playback_spec (runtime : snd_pcm_runtime) (stream : gip_headset_stream)
    (data : List u8) (len : Nat)
    (_hbuf : 0 < runtime.buffer_bytes) (hp : stream.pointer < runtime.buffer_bytes)
    (hlen : len ≤ runtime.buffer_bytes) (hdata : len ≤ data.length) :
    (∀ i, i < len →
      (gip_headset_copy_playback runtime stream data len).2.2.1.getD i 0 =
        runtime.dma_area.getD ((stream.pointer + i) % runtime.buffer_bytes) 0) ∧
    (len ≤ runtime.buffer_bytes - stream.pointer →
      (gip_headset_copy_playback runtime stream data len).2.2.2 =
        [memcpy_call.mk 0 stream.pointer len]) ∧
    (runtime.buffer_bytes - stream.pointer < len →
      (gip_headset_copy_playback runtime stream data len).2.2.2 =
        [memcpy_call.mk 0 stream.pointer (runtime.buffer_bytes - stream.pointer),
         memcpy_call.mk (runtime.buffer_bytes - stream.pointer) 0
           (len - (runtime.buffer_bytes - stream.pointer))]) ∧
    (gip_headset_copy_playback runtime stream data len).2.1.pointer =
      (stream.pointer + len) % runtime.buffer_bytes ∧
    (runtime.buffer_bytes = 100 → stream.pointer = 90 → len = 20 →
      (gip_headset_copy_playback runtime stream data len).2.2.2 =
        [memcpy_call.mk 0 90 10, memcpy_call.mk 10 0 10] ∧
      (gip_headset_copy_playback runtime stream data len).2.1.pointer = 10) := by
  have hrem : size_sub runtime.buffer_bytes stream.pointer =
      runtime.buffer_bytes - stream.pointer := by
    unfold size_sub
    rw [if_pos (by omega)]
  have hcalls1 : len ≤ runtime.buffer_bytes - stream.pointer →
      (gip_headset_copy_playback runtime stream data len).2.2.2 =
        [memcpy_call.mk 0 stream.pointer len] := by
    intro h
    unfold gip_headset_copy_playback
    simp only [hrem, advance_pointer_eq]
    rw [if_pos h]
  have hcalls2 : runtime.buffer_bytes - stream.pointer < len →
      (gip_headset_copy_playback runtime stream data len).2.2.2 =
        [memcpy_call.mk 0 stream.pointer (runtime.buffer_bytes - stream.pointer),
         memcpy_call.mk (runtime.buffer_bytes - stream.pointer) 0
           (len - (runtime.buffer_bytes - stream.pointer))] := by
    intro h
    unfold gip_headset_copy_playback
    simp only [hrem, advance_pointer_eq]
    rw [if_neg (by omega)]
  have hptr : (gip_headset_copy_playback runtime stream data len).2.1.pointer =
      (stream.pointer + len) % runtime.buffer_bytes := by
    unfold gip_headset_copy_playback
    simp only [advance_pointer_eq]
    exact wrap_once _ _ (by omega)
  refine ⟨?_, hcalls1, hcalls2, hptr, ?_⟩
  · intro i hi
    unfold gip_headset_copy_playback
    simp only [hrem, advance_pointer_eq]
    by_cases h : len ≤ runtime.buffer_bytes - stream.pointer
    · rw [if_pos h]
      simp only []
      rw [getD_memcpy _ _ _ _ _ _ (by omega), if_pos (by omega),
        Nat.mod_eq_of_lt (by omega)]
      simp
    · rw [if_neg h]
      simp only []
      rw [getD_memcpy _ _ _ _ _ _ (by rw [length_memcpy]; omega)]
      by_cases hi2 : runtime.buffer_bytes - stream.pointer ≤ i
      · rw [if_pos ⟨hi2, by omega⟩]
        have hmod : (stream.pointer + i) % runtime.buffer_bytes =
            i - (runtime.buffer_bytes - stream.pointer) := by
          rw [Nat.mod_eq_sub_mod (by omega), Nat.mod_eq_of_lt (by omega)]
          omega
        rw [hmod]
        simp
      · rw [if_neg (by omega), getD_memcpy _ _ _ _ _ _ (by omega), if_pos (by omega),
          Nat.mod_eq_of_lt (by omega)]
        simp
  · intro h100 h90 h20
    have hc := hcalls2 (by omega)
    rw [hc, hptr, h100, h90, h20]
    exact ⟨rfl, rfl⟩

/-- Witness for claim C14: a 100-byte ring with the cursor at 90 and a 20-byte copy. -/
theorem copy_playback_spec_witness :
    (gip_headset_copy_playback ⟨List.replicate 100 7, 50, 100⟩ ⟨none, 90, 0⟩
        (List.replicate 20 0) 20).2.2.2 = [memcpy_call.mk 0 90 10, memcpy_call.mk 10 0 10] ∧
      (gip_headset_copy_playback ⟨List.replicate 100 7, 50, 100⟩ ⟨none, 90, 0⟩
        (List.replicate 20 0) 20).2.1.pointer = 10 :=
  (copy_playback_spec ⟨List.replicate 100 7, 50, 100⟩ ⟨none, 90, 0⟩
    (List.replicate 20 0) 20 (by decide) (by decide) (by decide) (by decide)).2.2.2.2
    rfl rfl rfl

theorem advance_pointer_run_acc (runtime : snd_pcm_runtime) (buf_size : Nat)
    (hps : 0 < runtime.period_size) (lens : List Nat) :
    ∀ stream : gip_headset_stream, stream.period < runtime.period_size →
      (∀ len, len ∈ lens → len ≤ runtime.period_size) →
      (advance_pointer_run runtime buf_size stream lens).1 =
          (stream.period + lens.sum) / runtime.period_size ∧
        (advance_pointer_run runtime buf_size stream lens).2.period =
          (stream.period + lens.sum) % runtime.period_size := by
  induction lens with
  | nil =>
    intro stream hp _
    simp only [advance_pointer_run, List.sum_nil, Nat.add_zero]
    exact ⟨(Nat.div_eq_of_lt hp).symm, (Nat.mod_eq_of_lt hp).symm⟩
  | cons len rest ih =>
    intro stream hp hl
    have hlen : len ≤ runtime.period_size := hl len (List.mem_cons_self _ _)
    have hrest : ∀ l, l ∈ rest → l ≤ runtime.period_size :=
      fun l hm => hl l (List.mem_cons_of_mem _ hm)
    simp only [advance_pointer_run, advance_pointer_eq, List.sum_cons]
    by_cases hge : runtime.period_size ≤ stream.period + len
    · have ih' := ih
        { substream := stream.substream,
          pointer := if buf_size ≤ stream.pointer + len then stream.pointer + len - buf_size
            else stream.pointer + len,
          period := stream.period + len - runtime.period_size }
        (by simp only []; omega) hrest
      simp only [hge, if_true, decide_True] at ih' ⊢
      rw [ih'.1, ih'.2]
      have e : stream.period + (len + rest.sum) =
          (stream.period + len - runtime.period_size + rest.sum) + runtime.period_size := by
        omega
      rw [e, Nat.add_div_right _ hps, Nat.add_mod_right]
      exact ⟨by omega, rfl⟩
    · have ih' := ih
        { substream := stream.substream,
          pointer := if buf_size ≤ stream.pointer + len then stream.pointer + len - buf_size
            else stream.pointer + len,
          period := stream.period + len }
        (by simp only []; omega) hrest
      simp only [hge, if_false, decide_False] at ih' ⊢
      rw [ih'.1, ih'.2]
      have e : stream.period + (len + rest.sum) = stream.period + len + rest.sum := by omega
      rw [e]
      exact ⟨by simp, rfl⟩

/-- Claim C15: starting from a freshly triggered stream (`period = 0`) with
`period_size > 0`, for every sequence of transfers whose lengths are between 0 and
`period_size`, the number of times `gip_headset_advance_pointer` returns true equals
`floor(total / period_size)` and the accumulator afterwards equals `total mod
period_size`: the remainder is carried, never reset to zero. -/
theorem advance_pointer_period_count (runtime : snd_pcm_runtime) (buf_size : Nat)
    (stream : gip_headset_stream) (lens : List Nat)
    (hps : 0 < runtime.period_size) (h0 : stream.period = 0)
    (hl : ∀ len, len ∈ lens → len ≤ runtime.period_size) :
    (advance_pointer_run runtime buf_size stream lens).1 = lens.sum / runtime.period_size ∧
      (advance_pointer_run runtime buf_size stream lens).2.period =
        lens.sum % runtime.period_size := by
  have h := advance_pointer_run_acc runtime buf_size hps lens stream (by omega) hl
  rw [h0, Nat.zero_add] at h
  exact h

/-- Witness for claim C15: period size 10 and transfers of 7, 7, 7 and 4 bytes (25 bytes):
two period-elapsed signals and 5 bytes carried. -/
theorem advance_pointer_period_count_witness :
    (advance_pointer_run ⟨[], 10, 40⟩ 40 ⟨none, 0, 0⟩ [7, 7, 7, 4]).1 = 2 ∧
      (advance_pointer_run ⟨[], 10, 40⟩ 40 ⟨none, 0, 0⟩ [7, 7, 7, 4]).2.period = 5 :=
  advance_pointer_period_count ⟨[], 10, 40⟩ 40 ⟨none, 0, 0⟩ [7, 7, 7, 4]
    (by decide) rfl (by decide)

theorem playback_period_overrun (runtime : snd_pcm_runtime) (stream : gip_headset_stream)
    (data : List u8) (channels : Nat)
    (hch : 0 < channels) :
    runtime.period_size ≤
      (gip_headset_copy_playback runtime stream data
        (frames_to_bytes channels runtime.period_size)).2.1.period := by
  have hlen : 2 * runtime.period_size ≤ frames_to_bytes channels runtime.period_size := by
    unfold frames_to_bytes
    calc 2 * runtime.period_size = runtime.period_size * (2 * 1) := by omega
      _ ≤ runtime.period_size * (2 * channels) :=
        Nat.mul_le_mul_left _ (Nat.mul_le_mul_left _ hch)
  unfold gip_headset_copy_playback
  simp only [advance_pointer_eq]
  rw [if_pos (by omega)]
  omega

/-- Claim C16, the code at the failing input: a playback stream with a 16-byte ring and a
period of 2 frames of mono S16 audio, which is the 4-byte transport frame
(`frames_to_bytes 1 2 = 4`), is started; the predicate `pointer < 16` and `period < 2`
holds. One ordinary tick of the audio pump copies the 4-byte frame and leaves
`pointer = 4` and `period = 2`: the accumulator counts bytes but is wrapped against
`runtime->period_size`, a number of frames, so `period < period_size` no longer holds. -/
theorem playback_tick_breaks_invariant :
    frames_to_bytes 1 2 = sample_headset.client.audio_config_out.buffer_size ∧
      stream_inv 16 2
        (gip_headset_pcm_trigger sample_headset
          ⟨snd_pcm_stream_dir.SNDRV_PCM_STREAM_PLAYBACK,
            some ⟨List.replicate 16 (0 : u8), 2, 16⟩, true⟩
          SNDRV_PCM_TRIGGER_START).2.playback ∧
      ¬ stream_inv 16 2
        (gip_headset_send_samples 8
          (gip_headset_pcm_trigger sample_headset
            ⟨snd_pcm_stream_dir.SNDRV_PCM_STREAM_PLAYBACK,
              some ⟨List.replicate 16 (0 : u8), 2, 16⟩, true⟩
            SNDRV_PCM_TRIGGER_START).2 0).2.1.playback ∧
      (gip_headset_send_samples 8
          (gip_headset_pcm_trigger sample_headset
            ⟨snd_pcm_stream_dir.SNDRV_PCM_STREAM_PLAYBACK,
              some ⟨List.replicate 16 (0 : u8), 2, 16⟩, true⟩
            SNDRV_PCM_TRIGGER_START).2 0).2.1.playback.pointer = 4 ∧
      (gip_headset_send_samples 8
          (gip_headset_pcm_trigger sample_headset
            ⟨snd_pcm_stream_dir.SNDRV_PCM_STREAM_PLAYBACK,
              some ⟨List.replicate 16 (0 : u8), 2, 16⟩, true⟩
            SNDRV_PCM_TRIGGER_START).2 0).2.1.playback.period = 2 := by
  decide

/-! ## The audio pump -/

/-- Claim C18: on each audio pump tick an outbound audio packet is sent (exactly one) iff
`got_authenticated` is set; the pump restarts and forwards the timer by the audio interval
iff nothing was sent, the send succeeded or it failed with `-ENOSPC`; for every other send
failure it returns `HRTIMER_NORESTART` and does not forward the timer. -/
theorem send_samples_spec (GIP_AUDIO_INTERVAL : Nat) (headset : gip_headset) (err : Int) :
    (((gip_headset_send_samples GIP_AUDIO_INTERVAL headset err).2.2.filter
          (fun c => match c with
            | headset_call.gip_send_audio_samples _ => true
            | _ => false)).length =
        if headset.got_authenticated = true then 1 else 0) ∧
    ((gip_headset_send_samples GIP_AUDIO_INTERVAL headset err).1 =
        hrtimer_restart.HRTIMER_RESTART ↔
      (headset.got_authenticated = false ∨ err = 0 ∨ err = -ENOSPC)) ∧
    ((gip_headset_send_samples GIP_AUDIO_INTERVAL headset err).1 =
        hrtimer_restart.HRTIMER_NORESTART ↔
      (headset.got_authenticated = true ∧ err ≠ 0 ∧ err ≠ -ENOSPC)) ∧
    (headset_call.hrtimer_forward_now headset_timer.timer (ms_to_ktime GIP_AUDIO_INTERVAL) ∈
        (gip_headset_send_samples GIP_AUDIO_INTERVAL headset err).2.2 ↔
      (gip_headset_send_samples GIP_AUDIO_INTERVAL headset err).1 =
        hrtimer_restart.HRTIMER_RESTART) := by
  unfold gip_headset_send_samples
  rcases hsub : headset.playback.substream with _ | sub
  · simp only []
    cases ha : headset.got_authenticated <;>
      by_cases h0 : err = 0 <;> by_cases h1 : err = -ENOSPC <;>
      simp [ha, h0, h1]
  · simp only []
    rcases hrt : sub.runtime with _ | runtime
    · simp only []
      cases ha : headset.got_authenticated <;>
        by_cases h0 : err = 0 <;> by_cases h1 : err = -ENOSPC <;>
        simp [ha, h0, h1]
    · simp only []
      cases hrun : sub.running
      · simp only [Bool.false_eq_true, if_false]
        cases ha : headset.got_authenticated <;>
          by_cases h0 : err = 0 <;> by_cases h1 : err = -ENOSPC <;>
          simp [ha, h0, h1]
      · simp only [if_true]
        cases hel : (gip_headset_copy_playback runtime headset.playback headset.buffer
            headset.client.audio_config_out.buffer_size).1 <;>
          cases ha : headset.got_authenticated <;>
          by_cases h0 : err = 0 <;> by_cases h1 : err = -ENOSPC <;>
          simp [ha, h0, h1]

/-- Witness for claim C18: an authenticated headset whose send fails with `-ENOSPC`
restarts, and one whose send fails with `-EINVAL` halts. -/
theorem send_samples_spec_witness :
    (gip_headset_send_samples 8 { sample_headset with got_authenticated := true }
        (-ENOSPC)).1 = hrtimer_restart.HRTIMER_RESTART ∧
      (gip_headset_send_samples 8 { sample_headset with got_authenticated := true }
        (-EINVAL)).1 = hrtimer_restart.HRTIMER_NORESTART :=
  ⟨(send_samples_spec 8 { sample_headset with got_authenticated := true } (-ENOSPC)).2.1.2
      (Or.inr (Or.inr rfl)),
   (send_samples_spec 8 { sample_headset with got_authenticated := true } (-EINVAL)).2.2.1.2
      ⟨rfl, by decide, by decide⟩⟩

/-! ## The rumble rate limiter -/

theorem queue_rumble_eq (delay : Nat) (rumble : gip_gamepad_rumble) (effect : ff_effect)
    (ht : effect.type = FF_RUMBLE)
    (hs : effect.strong_magnitude ≤ 65535) (hw : effect.weak_magnitude ≤ 65535) :
    gip_gamepad_queue_rumble delay rumble effect =
      (0, { last := rumble.last,
            timer := if rumble.timer.isNone = true then some (wrap_ulong (rumble.last + delay))
              else rumble.timer,
            pkt := { rumble.pkt with
              left := (effect.strong_magnitude * 100 + 32767) / 65535,
              right := (effect.weak_magnitude * 100 + 32767) / 65535 } }) := by
  unfold gip_gamepad_queue_rumble
  simp only [ht, ne_eq, not_true_eq_false, if_false]
  rw [rescale_eq _ hs, rescale_eq _ hw]

theorem submit_burst_eq (delay : Nat) (effects : List ff_effect) (last_effect : ff_effect) :
    ∀ rumble : gip_gamepad_rumble,
      (∀ e, e ∈ effects ++ [last_effect] →
        e.type = FF_RUMBLE ∧ e.strong_magnitude ≤ 65535 ∧ e.weak_magnitude ≤ 65535) →
      rumble_submit_burst delay rumble (effects ++ [last_effect]) =
        { last := rumble.last,
          timer := if rumble.timer.isNone = true then some (wrap_ulong (rumble.last + delay))
            else rumble.timer,
          pkt := { rumble.pkt with
            left := (last_effect.strong_magnitude * 100 + 32767) / 65535,
            right := (last_effect.weak_magnitude * 100 + 32767) / 65535 } } := by
  induction effects with
  | nil =>
    intro rumble hall
    obtain ⟨ht, hs, hw⟩ := hall last_effect (by simp)
    simp only [rumble_submit_burst, List.nil_append, List.foldl_cons, List.foldl_nil]
    rw [queue_rumble_eq delay rumble last_effect ht hs hw]
  | cons e rest ih =>
    intro rumble hall
    obtain ⟨ht, hs, hw⟩ := hall e (by simp)
    have hrest : ∀ x, x ∈ rest ++ [last_effect] →
        x.type = FF_RUMBLE ∧ x.strong_magnitude ≤ 65535 ∧ x.weak_magnitude ≤ 65535 :=
      fun x hx => hall x (by simp only [List.cons_append, List.mem_cons]; exact Or.inr hx)
    have hstep := ih (gip_gamepad_queue_rumble delay rumble e).2 hrest
    simp only [rumble_submit_burst, List.cons_append, List.foldl_cons] at hstep ⊢
    rw [hstep, queue_rumble_eq delay rumble e ht hs hw]
    cases rumble.timer <;> rfl

/-- Claim C17: in the rumble rate limiter a rumble submit that arrives while the timer is
pending overwrites the buffered left/right magnitudes and leaves the timer's due time
unchanged; a submit in Idle arms the timer at `last + GIP_GP_RUMBLE_DELAY`. Consequently,
for every burst of one or more submits starting in Idle, the timer is due at
`last + GIP_GP_RUMBLE_DELAY`, and when it fires exactly one packet is sent: it carries the
rescaled magnitudes of the most recent submit and every other field as before the burst;
the send time is recorded and the limiter is Idle again. -/
theorem rumble_burst_collapses (delay now : Nat) (rumble pending : gip_gamepad_rumble)
    (due : Nat) (effect : ff_effect) (effects : List ff_effect) (last_effect : ff_effect)
    (hidle : rumble.timer = none) (hpending : pending.timer = some due)
    (heffect : effect.type = FF_RUMBLE ∧ effect.strong_magnitude ≤ 65535 ∧
      effect.weak_magnitude ≤ 65535)
    (hall : ∀ e, e ∈ effects ++ [last_effect] →
      e.type = FF_RUMBLE ∧ e.strong_magnitude ≤ 65535 ∧ e.weak_magnitude ≤ 65535) :
    ((gip_gamepad_queue_rumble delay pending effect).2.timer = some due ∧
      (gip_gamepad_queue_rumble delay pending effect).2.pkt =
        { pending.pkt with
          left := (effect.strong_magnitude * 100 + 32767) / 65535,
          right := (effect.weak_magnitude * 100 + 32767) / 65535 }) ∧
    (gip_gamepad_queue_rumble delay rumble effect).2.timer =
      some (wrap_ulong (rumble.last + delay)) ∧
    (rumble_submit_burst delay rumble (effects ++ [last_effect])).timer =
      some (wrap_ulong (rumble.last + delay)) ∧
    rumble_timer_fire now (rumble_submit_burst delay rumble (effects ++ [last_effect])) =
      ([{ rumble.pkt with
          left := (last_effect.strong_magnitude * 100 + 32767) / 65535,
          right := (last_effect.weak_magnitude * 100 + 32767) / 65535 }],
       { last := now,
         timer := none,
         pkt := { rumble.pkt with
           left := (last_effect.strong_magnitude * 100 + 32767) / 65535,
           right := (last_effect.weak_magnitude * 100 + 32767) / 65535 } }) := by
  obtain ⟨ht, hs, hw⟩ := heffect
  refine ⟨⟨?_, ?_⟩, ?_, ?_, ?_⟩
  · rw [queue_rumble_eq delay pending effect ht hs hw]
    simp [hpending]
  · rw [queue_rumble_eq delay pending effect ht hs hw]
  · rw [queue_rumble_eq delay rumble effect ht hs hw]
    simp [hidle]
  · rw [submit_burst_eq delay effects last_effect rumble hall]
    simp [hidle]
  · rw [submit_burst_eq delay effects last_effect rumble hall]
    simp [hidle, rumble_timer_fire, gip_gamepad_send_rumble]

/-- Witness for claim C17: three submits in Idle at `last = 100` with a delay of 3 ticks;
the timer fires at 103 with the magnitudes of the third submit. -/
theorem rumble_burst_collapses_witness :
    rumble_timer_fire 103
        (rumble_submit_burst 3 ⟨100, none, ⟨0, 15, 0, 0, 0, 0, 255, 0, 235⟩⟩
          ([⟨FF_RUMBLE, 65535, 0⟩, ⟨FF_RUMBLE, 1000, 2000⟩] ++ [⟨FF_RUMBLE, 32767, 65535⟩])) =
      ([⟨0, 15, 0, 0, 50, 100, 255, 0, 235⟩],
       ⟨103, none, ⟨0, 15, 0, 0, 50, 100, 255, 0, 235⟩⟩) :=
  (rumble_burst_collapses 3 103 ⟨100, none, ⟨0, 15, 0, 0, 0, 0, 255, 0, 235⟩⟩
    ⟨100, some 103, ⟨0, 15, 0, 0, 0, 0, 255, 0, 235⟩⟩ 103 ⟨FF_RUMBLE, 0, 0⟩
    [⟨FF_RUMBLE, 65535, 0⟩, ⟨FF_RUMBLE, 1000, 2000⟩] ⟨FF_RUMBLE, 32767, 65535⟩
    rfl rfl ⟨rfl, by decide, by decide⟩ (by decide)).2.2.2

/-! ## The paddle mapping and the paddle length checks -/

theorem select_paddles_no_override (gamepad : gip_gamepad) (data : List u8) (off : Nat)
    (hcap : (gamepad.paddle_support = PaddleCapability.PADDLE_ELITE2_4X ∧ off = 14) ∨
      (gamepad.paddle_support = PaddleCapability.PADDLE_ELITE2_510 ∧ off = 18))
    (hlen : off < data.length)
    (hprofile : data.length ≤ off + 1 ∨ byteAt data (off + 1) = 0) :
    select_paddles gamepad.paddle_support data = (true, false, byteAt data off) := by
  unfold select_paddles
  rcases hcap with ⟨hc, ho⟩ | ⟨hc, ho⟩ <;> subst ho <;> rw [hc]
  · have h14 : data.length > 14 := by omega
    rcases hprofile with hp | hp
    · have h15 : ¬ data.length > 15 := by omega
      simp [h14, h15]
    · simp [h14, hp]
  · have h18 : data.length > 18 := by omega
    rcases hprofile with hp | hp
    · have h19 : ¬ data.length > 19 := by omega
      simp [h18, h19]
    · simp [h18, hp]

theorem select_paddles_elite (data : List u8) (hlen : 28 < data.length) :
    select_paddles PaddleCapability.PADDLE_ELITE data = (true, true, byteAt data 28) := by
  unfold select_paddles
  simp [hlen]

theorem select_paddles_short (gamepad : gip_gamepad) (data : List u8) (off : Nat)
    (hcap : (gamepad.paddle_support = PaddleCapability.PADDLE_ELITE2_4X ∧ off = 14) ∨
      (gamepad.paddle_support = PaddleCapability.PADDLE_ELITE2_510 ∧ off = 18) ∨
      (gamepad.paddle_support = PaddleCapability.PADDLE_ELITE ∧ off = 28))
    (hlen : data.length ≤ off) :
    select_paddles gamepad.paddle_support data = (false, false, 0) := by
  unfold select_paddles
  rcases hcap with ⟨hc, ho⟩ | ⟨hc, ho⟩ | ⟨hc, ho⟩ <;> subst ho <;> rw [hc]
  · have h14 : ¬ data.length > 14 := by omega
    simp [h14]
  · have h18 : ¬ data.length > 18 := by omega
    simp [h18]
  · have h28 : ¬ data.length > 28 := by omega
    simp [h28]

theorem select_paddles_none (gamepad : gip_gamepad) (data : List u8)
    (hcap : gamepad.paddle_support = PaddleCapability.PADDLE_NONE ∨
      gamepad.paddle_support = PaddleCapability.PADDLE_ELITE2_511) :
    select_paddles gamepad.paddle_support data = (false, false, 0) := by
  unfold select_paddles
  rcases hcap with hc | hc <;> rw [hc] <;> simp

theorem no_paddle_events (gamepad : gip_gamepad) (data : List u8)
    (hsel : select_paddles gamepad.paddle_support data = (false, false, 0)) (i : Fin 4) :
    keyValues (paddle_key i) (gip_gamepad_op_input gamepad data).2 = [] := by
  by_cases hacc : (gip_gamepad_op_input gamepad data).1 = 0
  · rw [op_input_events gamepad data hacc, hsel]
    fin_cases i <;> cases gamepad.supports_share <;> simp [keyValues, paddle_key]
  · rw [op_input_ret] at hacc
    rw [op_input_rejected gamepad data hacc]
    rfl

/-- Counterexample for claim C19 as stated: on a mid-firmware Elite 2 an accepted 20-byte
packet has paddle byte 0x0f at offset 18 and profile byte 1 at offset 19. Raw bit 0 is
set, yet logical paddle 1 (BTN_TRIGGER_HAPPY5) is reported released: with a profile active
the raw bits drive no paddle. -/
theorem paddle_mapping_overridden :
    (gip_gamepad_op_input ⟨false, false, PaddleCapability.PADDLE_ELITE2_510⟩
        (sample_frame ++ [0, 0, 0, 0, 15, 1])).1 = 0 ∧
      (byteAt (sample_frame ++ [0, 0, 0, 0, 15, 1]) 18).testBit 0 = true ∧
      keyValues (paddle_key 0)
        (gip_gamepad_op_input ⟨false, false, PaddleCapability.PADDLE_ELITE2_510⟩
          (sample_frame ++ [0, 0, 0, 0, 15, 1])).2 = [false] := by
  decide

/-- Claim C19, amended: on an accepted packet that contains the paddle byte, for the
Elite 2 early (offset 14) and mid (offset 18) layouts with no profile active (profile byte
absent or zero) logical paddles 1,2,3,4 (BTN_TRIGGER_HAPPY5..8) are pressed iff raw bits
0,1,2,3 of the paddle byte are set, and for the original Elite they are pressed iff raw
bits 1,3,0,2 of byte 28 are set. Both bit-to-paddle mappings are bijections of the four
paddle bits, and the Elite mapping is a permutation different from the Elite 2 one (it
fixes no bit). -/
theorem paddle_mapping (gamepad : gip_gamepad) (data : List u8) (off : Nat)
    (hacc : (gip_gamepad_op_input gamepad data).1 = 0) :
    (((gamepad.paddle_support = PaddleCapability.PADDLE_ELITE2_4X ∧ off = 14) ∨
        (gamepad.paddle_support = PaddleCapability.PADDLE_ELITE2_510 ∧ off = 18)) →
      off < data.length →
      (data.length ≤ off + 1 ∨ byteAt data (off + 1) = 0) →
      ∀ i : Fin 4, keyValues (paddle_key i) (gip_gamepad_op_input gamepad data).2 =
        [(byteAt data off).testBit (paddle_bit_elite2 i)]) ∧
    (gamepad.paddle_support = PaddleCapability.PADDLE_ELITE → 28 < data.length →
      ∀ i : Fin 4, keyValues (paddle_key i) (gip_gamepad_op_input gamepad data).2 =
        [(byteAt data 28).testBit (paddle_bit_elite i)]) ∧
    Function.Bijective paddle_bit_elite2 ∧
    Function.Bijective paddle_bit_elite ∧
    paddle_bit_elite ≠ paddle_bit_elite2 ∧
    (∀ i : Fin 4, paddle_bit_elite i ≠ paddle_bit_elite2 i) := by
  refine ⟨?_, ?_, ?_, ?_, ?_, ?_⟩
  · intro hcap hlen hprofile i
    rw [op_input_events gamepad data hacc,
      select_paddles_no_override gamepad data off hcap hlen hprofile]
    fin_cases i <;> cases gamepad.supports_share <;>
      simp [keyValues, paddle_key, paddle_bit_elite2] <;> rfl
  · intro hcap hlen i
    rw [op_input_events gamepad data hacc, hcap, select_paddles_elite data hlen]
    fin_cases i <;> cases gamepad.supports_share <;>
      simp [keyValues, paddle_key, paddle_bit_elite] <;> rfl
  · exact Function.bijective_id
  · decide
  · decide
  · decide

/-- Witness for claim C19: an original Elite and a 29-byte packet whose byte 28 is 0x02
(raw bit 1): logical paddle 1 is pressed. -/
theorem paddle_mapping_witness :
    keyValues (paddle_key 0)
        (gip_gamepad_op_input ⟨false, false, PaddleCapability.PADDLE_ELITE⟩
          (sample_frame ++ List.replicate 14 0 ++ [2])).2 = [true] :=
  (paddle_mapping ⟨false, false, PaddleCapability.PADDLE_ELITE⟩
    (sample_frame ++ List.replicate 14 0 ++ [2]) 28 (by decide)).2.1 rfl (by decide) 0

/-- Counterexample for claim C20 as stated: an early-firmware Elite 2 (paddle offset 14)
with the share interface receives the 14-byte sample frame, a packet of length at least 14
and at most the offset. It is not decoded successfully: the share-offset length check
rejects it with `-EINVAL`. -/
theorem short_paddle_packet_rejected :
    14 ≤ sample_frame.length ∧ sample_frame.length ≤ 14 ∧
      (gip_gamepad_op_input ⟨true, false, PaddleCapability.PADDLE_ELITE2_4X⟩
        sample_frame).1 ≠ 0 ∧
      gip_gamepad_op_input ⟨true, false, PaddleCapability.PADDLE_ELITE2_4X⟩ sample_frame
        = (-EINVAL, []) := by
  decide

/-- Claim C20, amended: `gip_gamepad_op_input` reads the in-band paddle byte only when it
lies inside the packet. For the capability offsets 14 (early), 18 (mid) and 28 (original
Elite) a packet of length at least 14 and at most the offset is decoded successfully
exactly when it passes the share-offset length check, and reports no paddle event at all,
accepted or not; for the early and mid layouts a packet that ends right after the paddle
byte (length offset + 1) is reported from the raw paddle bits, no profile byte being
consulted; and for the None and post-5.10 capabilities no paddle event is ever emitted,
whatever the packet length. -/
theorem paddle_length_checks (gamepad : gip_gamepad) (data : List u8) (off : Nat) :
    (((gamepad.paddle_support = PaddleCapability.PADDLE_ELITE2_4X ∧ off = 14) ∨
        (gamepad.paddle_support = PaddleCapability.PADDLE_ELITE2_510 ∧ off = 18) ∨
        (gamepad.paddle_support = PaddleCapability.PADDLE_ELITE ∧ off = 28)) →
      14 ≤ data.length → data.length ≤ off →
      ((gip_gamepad_op_input gamepad data).1 = 0 ↔
        ¬ (gamepad.supports_share = true ∧
          data.length < (if gamepad.supports_dli = true then 26 else 18))) ∧
      ∀ i : Fin 4, keyValues (paddle_key i) (gip_gamepad_op_input gamepad data).2 = []) ∧
    (((gamepad.paddle_support = PaddleCapability.PADDLE_ELITE2_4X ∧ off = 14) ∨
        (gamepad.paddle_support = PaddleCapability.PADDLE_ELITE2_510 ∧ off = 18)) →
      data.length = off + 1 → (gip_gamepad_op_input gamepad data).1 = 0 →
      ∀ i : Fin 4, keyValues (paddle_key i) (gip_gamepad_op_input gamepad data).2 =
        [(byteAt data off).testBit i]) ∧
    ((gamepad.paddle_support = PaddleCapability.PADDLE_NONE ∨
        gamepad.paddle_support = PaddleCapability.PADDLE_ELITE2_511) →
      ∀ i : Fin 4, keyValues (paddle_key i) (gip_gamepad_op_input gamepad data).2 = []) := by
  refine ⟨?_, ?_, ?_⟩
  · intro hcap h14 hlen
    refine ⟨?_, no_paddle_events gamepad data (select_paddles_short gamepad data off hcap hlen)⟩
    rw [op_input_ret, share_offset_eq]
    exact ⟨fun h => h.2, fun h => ⟨h14, h⟩⟩
  · intro hcap hlen hacc i
    rw [op_input_events gamepad data hacc,
      select_paddles_no_override gamepad data off hcap (by omega) (Or.inl (by omega))]
    fin_cases i <;> cases gamepad.supports_share <;> simp [keyValues, paddle_key]
  · intro hcap
    exact no_paddle_events gamepad data (select_paddles_none gamepad data hcap)

/-- Witness for claim C20: a mid-firmware Elite 2 without the share interface and an
18-byte packet (the paddle byte at offset 18 is outside) is accepted with no paddle
event. -/
theorem paddle_length_checks_witness :
    (gip_gamepad_op_input ⟨false, false, PaddleCapability.PADDLE_ELITE2_510⟩
        (sample_frame ++ [0, 0, 0, 15])).1 = 0 ∧
      keyValues (paddle_key 0)
        (gip_gamepad_op_input ⟨false, false, PaddleCapability.PADDLE_ELITE2_510⟩
          (sample_frame ++ [0, 0, 0, 15])).2 = [] :=
  ⟨((paddle_length_checks ⟨false, false, PaddleCapability.PADDLE_ELITE2_510⟩
      (sample_frame ++ [0, 0, 0, 15]) 18).1 (Or.inr (Or.inl ⟨rfl, rfl⟩)) (by decide)
      (by decide)).1.2 (by decide),
   ((paddle_length_checks ⟨false, false, PaddleCapability.PADDLE_ELITE2_510⟩
      (sample_frame ++ [0, 0, 0, 15]) 18).1 (Or.inr (Or.inl ⟨rfl, rfl⟩)) (by decide)
      (by decide)).2 0⟩

/-! ## Buttons and triggers -/

theorem byteAt_set_ne (data : List u8) (b : u8) (i : Nat) (hi : i ≠ 0) :
    byteAt (data.set 0 b) i = byteAt data i := by
  unfold byteAt
  rw [List.getD_eq_getElem?_getD, List.getD_eq_getElem?_getD,
    List.getElem?_set_ne (fun h => hi h.symm)]

theorem byteAt_set_zero (data : List u8) (b : u8) (h0 : 0 < data.length) :
    byteAt (data.set 0 b) 0 = b.val := by
  unfold byteAt
  rw [List.getD_eq_getElem?_getD, List.getElem?_set_self h0]
  rfl

theorem testBit_high (n m k : Nat) (h : n / 4 = m / 4) (hk : 2 ≤ k) :
    n.testBit k = m.testBit k := by
  obtain ⟨j, rfl⟩ : ∃ j, k = 2 + j := ⟨k - 2, by omega⟩
  rw [← Nat.testBit_shiftRight, ← Nat.testBit_shiftRight, Nat.shiftRight_eq_div_pow,
    Nat.shiftRight_eq_div_pow]
  norm_num
  rw [h]

theorem le16_set_high (data : List u8) (b : u8) (h0 : 0 < data.length)
    (hb : b.val / 4 = byteAt data 0 / 4) (k : Nat) (hk : 2 ≤ k) :
    (le16_to_cpu (data.set 0 b) 0).testBit k = (le16_to_cpu data 0).testBit k := by
  apply testBit_high _ _ _ _ hk
  unfold le16_to_cpu
  rw [byteAt_set_zero data b h0, byteAt_set_ne data b (0 + 1) (by omega)]
  omega

theorem le16_set_other (data : List u8) (b : u8) (off : Nat) (hoff : off ≠ 0) :
    le16_to_cpu (data.set 0 b) off = le16_to_cpu data off := by
  unfold le16_to_cpu
  rw [byteAt_set_ne data b off hoff, byteAt_set_ne data b (off + 1) (by omega)]

theorem select_paddles_set (cap : PaddleCapability) (data : List u8) (b : u8) :
    select_paddles cap (data.set 0 b) = select_paddles cap data := by
  unfold select_paddles
  simp only [List.length_set]
  rw [byteAt_set_ne data b 18 (by omega), byteAt_set_ne data b 19 (by omega),
    byteAt_set_ne data b 14 (by omega), byteAt_set_ne data b 15 (by omega),
    byteAt_set_ne data b 28 (by omega)]

/-- Counterexample for claim C21 as stated: with the share interface an accepted packet of
exactly 18 bytes has its share byte at index 0, the low byte of the buttons word. Setting
only bit 0 of that byte changes a reported event: the share button (KEY_RECORD) goes from
released to pressed. -/
theorem button_bit_zero_drives_share :
    (gip_gamepad_op_input ⟨true, false, PaddleCapability.PADDLE_NONE⟩
        (List.replicate 18 (0 : u8))).1 = 0 ∧
      keyValues KeyCode.KEY_RECORD
        (gip_gamepad_op_input ⟨true, false, PaddleCapability.PADDLE_NONE⟩
          (List.replicate 18 (0 : u8))).2 = [false] ∧
      keyValues KeyCode.KEY_RECORD
        (gip_gamepad_op_input ⟨true, false, PaddleCapability.PADDLE_NONE⟩
          ((List.replicate 18 (0 : u8)).set 0 1)).2 = [true] := by
  decide

/-- Claim C21, amended: for every accepted input packet each logical button is reported
once, pressed iff its mask bit of the little-endian buttons word (bytes 0-1) is set:
start = bit 2, select = bit 3, A = bit 4, B = bit 5, X = bit 6, Y = bit 7, left bumper =
bit 12, right bumper = bit 13, left stick click = bit 14, right stick click = bit 15.
Bits 0 and 1 influence no reported event other than the share button: replacing byte 0 by
a byte `b` with the same bits 2..7 leaves every event except KEY_RECORD unchanged, and
leaves the whole result unchanged unless the share interface is present and the packet
is exactly as long as the share offset (the share byte then is byte 0). -/
theorem op_input_buttons (gamepad : gip_gamepad) (data : List u8) (b : u8)
    (hacc : (gip_gamepad_op_input gamepad data).1 = 0)
    (hb : b.val / 4 = byteAt data 0 / 4) :
    (keyValues KeyCode.BTN_START (gip_gamepad_op_input gamepad data).2
        = [(le16_to_cpu data 0).testBit 2] ∧
      keyValues KeyCode.BTN_SELECT (gip_gamepad_op_input gamepad data).2
        = [(le16_to_cpu data 0).testBit 3] ∧
      keyValues KeyCode.BTN_A (gip_gamepad_op_input gamepad data).2
        = [(le16_to_cpu data 0).testBit 4] ∧
      keyValues KeyCode.BTN_B (gip_gamepad_op_input gamepad data).2
        = [(le16_to_cpu data 0).testBit 5] ∧
      keyValues KeyCode.BTN_X (gip_gamepad_op_input gamepad data).2
        = [(le16_to_cpu data 0).testBit 6] ∧
      keyValues KeyCode.BTN_Y (gip_gamepad_op_input gamepad data).2
        = [(le16_to_cpu data 0).testBit 7] ∧
      keyValues KeyCode.BTN_TL (gip_gamepad_op_input gamepad data).2
        = [(le16_to_cpu data 0).testBit 12] ∧
      keyValues KeyCode.BTN_TR (gip_gamepad_op_input gamepad data).2
        = [(le16_to_cpu data 0).testBit 13] ∧
      keyValues KeyCode.BTN_THUMBL (gip_gamepad_op_input gamepad data).2
        = [(le16_to_cpu data 0).testBit 14] ∧
      keyValues KeyCode.BTN_THUMBR (gip_gamepad_op_input gamepad data).2
        = [(le16_to_cpu data 0).testBit 15]) ∧
    ((gip_gamepad_op_input gamepad (data.set 0 b)).2.filter
        (fun e => match e with
          | InputEvent.key KeyCode.KEY_RECORD _ => false
          | _ => true) =
      (gip_gamepad_op_input gamepad data).2.filter
        (fun e => match e with
          | InputEvent.key KeyCode.KEY_RECORD _ => false
          | _ => true)) ∧
    (¬ (gamepad.supports_share = true ∧
        data.length = (if gamepad.supports_dli = true then 26 else 18)) →
      gip_gamepad_op_input gamepad (data.set 0 b) = gip_gamepad_op_input gamepad data) := by
  have hret := (op_input_ret gamepad data).1 hacc
  have h0 : 0 < data.length := by omega
  have hacc' : (gip_gamepad_op_input gamepad (data.set 0 b)).1 = 0 := by
    rw [op_input_ret, List.length_set]
    exact hret
  have hk := le16_set_high data b h0 hb
  have hev' := op_input_events gamepad (data.set 0 b) hacc'
  simp only [GIP_GP_BTN_DPAD_R, GIP_GP_BTN_DPAD_L, GIP_GP_BTN_DPAD_D, GIP_GP_BTN_DPAD_U,
    notnot_mask] at hev'
  rw [hk 2 (by omega), hk 3 (by omega), hk 4 (by omega), hk 5 (by omega), hk 6 (by omega),
    hk 7 (by omega), hk 8 (by omega), hk 9 (by omega), hk 10 (by omega), hk 11 (by omega),
    hk 12 (by omega), hk 13 (by omega), hk 14 (by omega), hk 15 (by omega),
    select_paddles_set, le16_set_other data b 6 (by omega),
    le16_set_other data b 10 (by omega), le16_set_other data b 8 (by omega),
    le16_set_other data b 12 (by omega), le16_set_other data b 2 (by omega),
    le16_set_other data b 4 (by omega), List.length_set] at hev'
  have hev := op_input_events gamepad data hacc
  simp only [GIP_GP_BTN_DPAD_R, GIP_GP_BTN_DPAD_L, GIP_GP_BTN_DPAD_D, GIP_GP_BTN_DPAD_U,
    notnot_mask] at hev
  refine ⟨?_, ?_, ?_⟩
  · rw [hev]
    cases gamepad.supports_share <;>
      rcases select_paddles gamepad.paddle_support data with ⟨_ | _, _ | _, p⟩ <;>
      simp [keyValues]
  · rw [hev, hev']
    cases gamepad.supports_share <;> simp [List.filter]
  · intro hns
    have hfst : (gip_gamepad_op_input gamepad (data.set 0 b)).1 =
        (gip_gamepad_op_input gamepad data).1 := by rw [hacc, hacc']
    refine Prod.ext hfst ?_
    rw [hev, hev']
    cases hs : gamepad.supports_share
    · rfl
    · have hoff := share_offset_eq gamepad
      have hne : data.length - share_offset gamepad ≠ 0 := by
        have h1 := hret.2
        rw [hs] at hns h1
        rw [hoff] at h1 ⊢
        simp only [true_and, not_lt] at h1 hns
        omega
      rw [byteAt_set_ne data b _ hne]

/-- Witness for claim C21: the sample frame, whose buttons word is 0x0800, with byte 0
replaced by 3 (bits 0 and 1 set). -/
theorem op_input_buttons_witness :
    gip_gamepad_op_input ⟨false, false, PaddleCapability.PADDLE_NONE⟩ (sample_frame.set 0 3)
      = gip_gamepad_op_input ⟨false, false, PaddleCapability.PADDLE_NONE⟩ sample_frame :=
  (op_input_buttons ⟨false, false, PaddleCapability.PADDLE_NONE⟩ sample_frame 3
    (by decide) (by decide)).2.2 (by decide)

/-- Counterexample for claim C22 as stated: an accepted 14-byte frame whose raw
`trigger_left` field (bytes 2-3) is 0x0400 is reported as `ABS_Z = 1024`, outside the
10-bit range 0..1023. -/
theorem trigger_above_ten_bits :
    (gip_gamepad_op_input ⟨false, false, PaddleCapability.PADDLE_NONE⟩
        [0, 0, 0, 4, 0, 0, 0, 0, 0, 0, 0, 0, 0, 0]).1 = 0 ∧
      absValues AbsCode.ABS_Z
        (gip_gamepad_op_input ⟨false, false, PaddleCapability.PADDLE_NONE⟩
          [0, 0, 0, 4, 0, 0, 0, 0, 0, 0, 0, 0, 0, 0]).2 = [1024] ∧
      ¬ ((1024 : Int) ≤ 1023) := by
  decide

/-- Claim C22, amended: for every accepted input packet the trigger axes `ABS_Z` and
`ABS_RZ` are each reported once, as the unsigned value of the raw little-endian 16-bit
fields `trigger_left` (bytes 2-3) and `trigger_right` (bytes 4-5), unchanged: a value in
0..65535, which lies in the declared 10-bit range 0..1023 exactly when the raw field
does. -/
theorem op_input_triggers (gamepad : gip_gamepad) (data : List u8)
    (hacc : (gip_gamepad_op_input gamepad data).1 = 0) :
    (absValues AbsCode.ABS_Z (gip_gamepad_op_input gamepad data).2
        = [(le16_to_cpu data 2 : Int)] ∧
      absValues AbsCode.ABS_RZ (gip_gamepad_op_input gamepad data).2
        = [(le16_to_cpu data 4 : Int)]) ∧
    (le16_to_cpu data 2 = byteAt data 2 + 256 * byteAt data 3 ∧
      le16_to_cpu data 4 = byteAt data 4 + 256 * byteAt data 5) ∧
    (∀ v, v ∈ absValues AbsCode.ABS_Z (gip_gamepad_op_input gamepad data).2 ∨
          v ∈ absValues AbsCode.ABS_RZ (gip_gamepad_op_input gamepad data).2 →
        0 ≤ v ∧ v ≤ 65535) ∧
    ((∀ v, v ∈ absValues AbsCode.ABS_Z (gip_gamepad_op_input gamepad data).2 → v ≤ 1023) ↔
      le16_to_cpu data 2 ≤ 1023) ∧
    ((∀ v, v ∈ absValues AbsCode.ABS_RZ (gip_gamepad_op_input gamepad data).2 → v ≤ 1023) ↔
      le16_to_cpu data 4 ≤ 1023) := by
  have hZ : absValues AbsCode.ABS_Z (gip_gamepad_op_input gamepad data).2
      = [(le16_to_cpu data 2 : Int)] := by
    rw [op_input_events gamepad data hacc]
    cases gamepad.supports_share <;>
      rcases select_paddles gamepad.paddle_support data with ⟨_ | _, _ | _, p⟩ <;>
      simp [absValues]
  have hRZ : absValues AbsCode.ABS_RZ (gip_gamepad_op_input gamepad data).2
      = [(le16_to_cpu data 4 : Int)] := by
    rw [op_input_events gamepad data hacc]
    cases gamepad.supports_share <;>
      rcases select_paddles gamepad.paddle_support data with ⟨_ | _, _ | _, p⟩ <;>
      simp [absValues]
  have h2 := le16_lt data 2
  have h4 := le16_lt data 4
  rw [hZ, hRZ]
  refine ⟨⟨rfl, rfl⟩, ⟨rfl, rfl⟩, ?_, ?_, ?_⟩
  · intro v hv
    simp only [List.mem_singleton] at hv
    rcases hv with hv | hv <;> subst hv <;> omega
  · simp only [List.mem_singleton, forall_eq]
    omega
  · simp only [List.mem_singleton, forall_eq]
    omega

/-- Witness for claim C22: the sample frame has raw triggers 1 and 2. -/
theorem op_input_triggers_witness :
    absValues AbsCode.ABS_Z
        (gip_gamepad_op_input ⟨false, false, PaddleCapability.PADDLE_NONE⟩ sample_frame).2
      = [((le16_to_cpu sample_frame 2 : Nat) : Int)] :=
  (op_input_triggers ⟨false, false, PaddleCapability.PADDLE_NONE⟩ sample_frame
    (by decide)).1.1

/-! ## Termination of the startup retry loop -/

theorem start_delay_le (HZ : Nat) (h : HZ ≤ 1000) :
    msecs_to_jiffies HZ 500 * 1000000 ≤ 500000000 := by
  unfold msecs_to_jiffies
  have : (500 * HZ + 999) / 1000 ≤ 500 := by omega
  omega

theorem start_audio_run_bound (HZ : Nat) (n : Nat) :
    ∀ (headset : gip_headset) (errs : List Int),
      headset.start_counter + n = 6 → n + 1 ≤ errs.length →
      (start_audio_run HZ headset errs).2.length ≤ n + 1 ∧
      (start_audio_run HZ headset errs).2.getLast? =
        some (hrtimer_restart.HRTIMER_NORESTART, [headset_call.schedule_work_register]) ∧
      restart_count (start_audio_run HZ headset errs).2 ≤ n ∧
      restart_count (start_audio_run HZ headset errs).2 + 1 =
        (start_audio_run HZ headset errs).2.length ∧
      rearm_time (start_audio_run HZ headset errs).2 =
        restart_count (start_audio_run HZ headset errs).2 *
          (msecs_to_jiffies HZ 500 * 1000000) ∧
      (∀ err, gip_headset_start_audio HZ (start_audio_run HZ headset errs).1 err =
        (hrtimer_restart.HRTIMER_NORESTART, (start_audio_run HZ headset errs).1,
          [headset_call.schedule_work_register])) ∧
      (headset.got_initial_volume = false → headset.got_audio_packet = false →
        (start_audio_run HZ headset errs).2.length = n + 1 ∧
        resend_count (start_audio_run HZ headset errs).2 = n) := by
  induction n with
  | zero =>
    intro headset errs hc hlen
    obtain ⟨err, rest, rfl⟩ : ∃ err rest, errs = err :: rest := by
      cases errs with
      | nil => simp at hlen
      | cons e r => exact ⟨e, r, rfl⟩
    have hstop : headset.got_initial_volume = true ∨ headset.got_audio_packet = true ∨
        headset.start_counter > 5 := Or.inr (Or.inr (by omega))
    have htick := (start_audio_tick HZ headset err).1 hstop
    have hrun : start_audio_run HZ headset (err :: rest) =
        (headset, [(hrtimer_restart.HRTIMER_NORESTART,
          [headset_call.schedule_work_register])]) := by
      simp only [start_audio_run, htick]
    rw [hrun]
    refine ⟨by simp, rfl, by simp [restart_count], by simp [restart_count],
      by simp [rearm_time, restart_count], ?_, fun _ _ => ⟨rfl, by simp [resend_count]⟩⟩
    intro e
    exact (start_audio_tick HZ headset e).1 hstop
  | succ n ih =>
    intro headset errs hc hlen
    obtain ⟨err, rest, rfl⟩ : ∃ err rest, errs = err :: rest := by
      cases errs with
      | nil => simp at hlen
      | cons e r => exact ⟨e, r, rfl⟩
    by_cases hstop : headset.got_initial_volume = true ∨ headset.got_audio_packet = true ∨
        headset.start_counter > 5
    · have htick := (start_audio_tick HZ headset err).1 hstop
      have hrun : start_audio_run HZ headset (err :: rest) =
          (headset, [(hrtimer_restart.HRTIMER_NORESTART,
            [headset_call.schedule_work_register])]) := by
        simp only [start_audio_run, htick]
      rw [hrun]
      refine ⟨by simp, rfl, by simp [restart_count], by simp [restart_count],
        by simp [rearm_time, restart_count], ?_, ?_⟩
      · intro e
        exact (start_audio_tick HZ headset e).1 hstop
      · intro hv ha
        rcases hstop with h | h | h
        · rw [hv] at h; exact absurd h (by decide)
        · rw [ha] at h; exact absurd h (by decide)
        · omega
    · have htick := (start_audio_tick HZ headset err).2 hstop
      have hlen' : n + 1 ≤ rest.length := by
        simp only [List.length_cons] at hlen
        omega
      have ih' := ih { headset with start_counter := headset.start_counter + 1 } rest
        (by simp only []; omega) hlen'
      have hrun : start_audio_run HZ headset (err :: rest) =
          ((start_audio_run HZ { headset with start_counter := headset.start_counter + 1 }
              rest).1,
            (hrtimer_restart.HRTIMER_RESTART,
              [headset_call.gip_set_power_mode gip_power_mode.GIP_PWR_ON,
               headset_call.hrtimer_forward_now headset_timer.start_audio_timer
                 (msecs_to_jiffies HZ 500 * 1000000)]) ::
            (start_audio_run HZ { headset with start_counter := headset.start_counter + 1 }
              rest).2) := by
        simp only [start_audio_run, htick]
      obtain ⟨i1, i2, i3, i4, i5, i6, i7⟩ := ih'
      rw [hrun]
      simp only []
      refine ⟨by simp only [List.length_cons]; omega, ?_, ?_, ?_, ?_, i6, ?_⟩
      · rw [List.getLast?_cons, i2]
        rfl
      · simp only [restart_count, List.filter_cons, decide_True, if_true, List.length_cons]
        simp only [restart_count] at i3
        omega
      · simp only [restart_count, List.filter_cons, decide_True, if_true, List.length_cons]
        simp only [restart_count] at i4
        omega
      · simp only [rearm_time, restart_count, List.map_cons, List.sum_cons, List.filter_cons,
          decide_True, if_true, List.length_cons, List.map_nil, List.sum_nil]
        simp only [rearm_time, restart_count] at i5
        rw [i5]
        ring
      · intro hv ha
        obtain ⟨j1, j2⟩ := i7 hv ha
        refine ⟨by simp only [List.length_cons]; omega, ?_⟩
        simp only [resend_count, List.map_cons, List.sum_cons] at j2 ⊢
        rw [j2]
        simp [List.count_cons]
        omega

/-- Claim C23: after the audio-ready signal (which sets `start_counter = 0`), and with no
volume report and no audio packet changing the flags during the run, the retry loop
terminates: the callback returns `HRTIMER_NORESTART` and schedules the register work
within at most 7 ticks, after at most 6 restarts. With the first tick immediate and one
period per restart that is no later than 6 periods, 6 x 500 ms = 3 s for a 500 ms period;
the time the code itself re-arms for is at most 3 s on every kernel with `HZ <= 1000`.
After that the callback never asks for a restart again: on the final state it returns
`HRTIMER_NORESTART` and leaves the state unchanged. -/
theorem start_audio_terminates (HZ : Nat) (headset : gip_headset) (errs : List Int)
    (hlen : 7 ≤ errs.length) :
    (start_audio_run HZ (gip_headset_op_audio_ready HZ headset).2.1 errs).2.length ≤ 7 ∧
    (start_audio_run HZ (gip_headset_op_audio_ready HZ headset).2.1 errs).2.getLast? =
      some (hrtimer_restart.HRTIMER_NORESTART, [headset_call.schedule_work_register]) ∧
    restart_count (start_audio_run HZ (gip_headset_op_audio_ready HZ headset).2.1 errs).2
      ≤ 6 ∧
    restart_count (start_audio_run HZ (gip_headset_op_audio_ready HZ headset).2.1 errs).2
      * ms_to_ktime 500 ≤ 6 * ms_to_ktime 500 ∧
    6 * ms_to_ktime 500 = 3000 * NSEC_PER_MSEC ∧
    (HZ ≤ 1000 →
      rearm_time (start_audio_run HZ (gip_headset_op_audio_ready HZ headset).2.1 errs).2
        ≤ 3000 * NSEC_PER_MSEC) ∧
    (∀ err, gip_headset_start_audio HZ
        (start_audio_run HZ (gip_headset_op_audio_ready HZ headset).2.1 errs).1 err =
      (hrtimer_restart.HRTIMER_NORESTART,
        (start_audio_run HZ (gip_headset_op_audio_ready HZ headset).2.1 errs).1,
        [headset_call.schedule_work_register])) := by
  have h := start_audio_run_bound HZ 6 (gip_headset_op_audio_ready HZ headset).2.1 errs
    (by simp [gip_headset_op_audio_ready]) (by omega)
  obtain ⟨h1, h2, h3, _, h5, h6, _⟩ := h
  refine ⟨h1, h2, h3, Nat.mul_le_mul_right _ h3, by decide, ?_, h6⟩
  intro hHZ
  rw [h5]
  have hd := start_delay_le HZ hHZ
  have hm := Nat.mul_le_mul h3 hd
  unfold NSEC_PER_MSEC
  omega

/-- Witness for claim C23: the sample headset on a kernel with `HZ = 1000` and seven
ticks. -/
theorem start_audio_terminates_witness :
    (start_audio_run 1000 (gip_headset_op_audio_ready 1000 sample_headset).2.1
        [0, 0, 0, 0, 0, 0, 0]).2.length ≤ 7 ∧
      rearm_time (start_audio_run 1000 (gip_headset_op_audio_ready 1000 sample_headset).2.1
        [0, 0, 0, 0, 0, 0, 0]).2 ≤ 3000 * NSEC_PER_MSEC :=
  ⟨(start_audio_terminates 1000 sample_headset [0, 0, 0, 0, 0, 0, 0] (by decide)).1,
   (start_audio_terminates 1000 sample_headset [0, 0, 0, 0, 0, 0, 0]
      (by decide)).2.2.2.2.2.1 (by decide)⟩

/-! ## The audio-ready signal -/

/-- Counterexample for claim C24 as stated: a volume report is received before the
audio-ready signal. After `gip_headset_op_audio_ready` the flag `got_initial_volume` is
still set, and the first tick of the retry timer schedules the register work at once,
with no power-on command sent: the earlier report does shorten the retry sequence. -/
theorem audio_ready_keeps_flags :
    (gip_headset_op_audio_ready 1000
        (gip_headset_op_audio_volume sample_headset 50 50).2).2.1.got_initial_volume = true ∧
      gip_headset_start_audio 1000
        (gip_headset_op_audio_ready 1000
          (gip_headset_op_audio_volume sample_headset 50 50).2).2.1 0 =
        (hrtimer_restart.HRTIMER_NORESTART,
          (gip_headset_op_audio_ready 1000
            (gip_headset_op_audio_volume sample_headset 50 50).2).2.1,
          [headset_call.schedule_work_register]) := by
  decide

/-- Claim C24, amended: on receipt of the audio-ready signal `gip_headset_op_audio_ready`
resets only the retry counter: afterwards `start_counter = 0` whatever it was before,
and every other field, `got_initial_volume` and `got_audio_packet` included, keeps its
value; it starts the retry timer with an immediate first expiry and schedules the power-on
task. A volume report or audio packet received before audio-ready therefore makes the
first tick schedule the register work without any resend. -/
theorem audio_ready_resets_counter (HZ : Nat) (headset : gip_headset) (err : Int) :
    gip_headset_op_audio_ready HZ headset =
      (0, { headset with start_counter := 0 },
        [headset_call.hrtimer_start headset_timer.start_audio_timer 0,
         headset_call.schedule_delayed_work_power_on (msecs_to_jiffies HZ 500)]) ∧
    (gip_headset_op_audio_ready HZ headset).2.1.start_counter = 0 ∧
    (gip_headset_op_audio_ready HZ headset).2.1.got_initial_volume
      = headset.got_initial_volume ∧
    (gip_headset_op_audio_ready HZ headset).2.1.got_audio_packet
      = headset.got_audio_packet ∧
    ((headset.got_initial_volume = true ∨ headset.got_audio_packet = true) →
      gip_headset_start_audio HZ (gip_headset_op_audio_ready HZ headset).2.1 err =
        (hrtimer_restart.HRTIMER_NORESTART, (gip_headset_op_audio_ready HZ headset).2.1,
          [headset_call.schedule_work_register])) := by
  refine ⟨rfl, rfl, rfl, rfl, ?_⟩
  intro h
  apply (start_audio_tick HZ _ err).1
  rcases h with h | h
  · exact Or.inl h
  · exact Or.inr (Or.inl h)

/-- Witness for claim C24: the sample headset after an audio packet, on a kernel with
`HZ = 250`. -/
theorem audio_ready_resets_counter_witness :
    gip_headset_start_audio 250
        (gip_headset_op_audio_ready 250
          { sample_headset with start_counter := 4, got_audio_packet := true }).2.1 0 =
      (hrtimer_restart.HRTIMER_NORESTART,
        (gip_headset_op_audio_ready 250
          { sample_headset with start_counter := 4, got_audio_packet := true }).2.1,
        [headset_call.schedule_work_register]) :=
  (audio_ready_resets_counter 250
    { sample_headset with start_counter := 4, got_audio_packet := true } 0).2.2.2.2
    (Or.inr rfl)

/-! ## The rumble setup at session start -/

/-- Claim C26: on a zero-initialised session `gip_gamepad_init_rumble` sends exactly one
command, synchronously: its motor-enable bitmask selects all four motors (0x0f), its
left-trigger, right-trigger, left and right magnitudes are 0, its duration is 0xff, its
delay 0 and its repeat 0xeb. The command is sent by a direct call of the timer callback:
the timer is not pending afterwards, and the send time is recorded. -/
theorem init_rumble_all_motors_off (jiffies : Nat) (err : Int) :
    (gip_gamepad_init_rumble jiffies rumble_zero err).2.2 =
      [{ unknown := 0, motors := 0x0f, left_trigger := 0, right_trigger := 0, left := 0,
         right := 0, duration := 0xff, delay := 0, «repeat» := 0xeb }] ∧
    (gip_gamepad_init_rumble jiffies rumble_zero err).2.1.timer = none ∧
    (gip_gamepad_init_rumble jiffies rumble_zero err).2.1.last = jiffies ∧
    (gip_gamepad_init_rumble jiffies rumble_zero err).2.1.pkt =
      { unknown := 0, motors := 0x0f, left_trigger := 0, right_trigger := 0, left := 0,
        right := 0, duration := 0xff, delay := 0, «repeat» := 0xeb } ∧
    (gip_gamepad_init_rumble jiffies rumble_zero err).1 = err ∧
    GIP_GP_MOTOR_R ||| GIP_GP_MOTOR_L ||| GIP_GP_MOTOR_RT ||| GIP_GP_MOTOR_LT = 0x0f := by
  exact ⟨rfl, rfl, rfl, rfl, rfl, by decide⟩

/-- Witness for claim C26: the setup at time 5 with `input_ff_create_memless` returning
0. -/
theorem init_rumble_all_motors_off_witness :
    (gip_gamepad_init_rumble 5 rumble_zero 0).2.2 = [⟨0, 15, 0, 0, 0, 0, 255, 0, 235⟩] :=
  (init_rumble_all_motors_off 5 0).1

/-! ## The power-on task -/

theorem check_auth_ids_table (hardware : gip_hardware) (b : Bool) :
    check_auth_ids hardware GIP_HS_CHECK_AUTH_IDS b =
      if (hardware.vendor = 0x1532 ∧ hardware.product = 0x0a25) ∨
          (hardware.vendor = 0x2f12 ∧ hardware.product = 0x0023) then false
      else b := by
  unfold GIP_HS_CHECK_AUTH_IDS
  simp only [check_auth_ids]
  by_cases h1 : hardware.vendor = 0x1532 ∧ hardware.product = 0x0a25
  · simp [h1]
  · by_cases h2 : hardware.vendor = 0x2f12 ∧ hardware.product = 0x0023
    · simp [h1, h2]
    · simp [h1, h2]

/-- Claim C27: after the power-on task `got_authenticated` is false iff the hardware's
(vendor, product) pair is (0x1532, 0x0a25) or (0x2f12, 0x0023) and true for every other
pair, whatever its previous value and whether or not the device is standalone; the
authentication handshake is started iff the device is standalone (client id 0) and the
battery initialisation succeeded. -/
theorem power_on_spec (headset : gip_headset) (err_battery err_handshake : Int) :
    ((gip_headset_power_on headset err_battery err_handshake).1.got_authenticated = false ↔
      ((headset.client.hardware.vendor = 0x1532 ∧ headset.client.hardware.product = 0x0a25) ∨
        (headset.client.hardware.vendor = 0x2f12 ∧
          headset.client.hardware.product = 0x0023))) ∧
    ((gip_headset_power_on headset err_battery err_handshake).1.got_authenticated = true ↔
      ¬ ((headset.client.hardware.vendor = 0x1532 ∧
          headset.client.hardware.product = 0x0a25) ∨
        (headset.client.hardware.vendor = 0x2f12 ∧
          headset.client.hardware.product = 0x0023))) ∧
    (headset_call.gip_auth_start_handshake ∈
        (gip_headset_power_on headset err_battery err_handshake).2 ↔
      (headset.client.id = 0 ∧ err_battery = 0)) ∧
    (headset_call.gip_init_battery ∈
        (gip_headset_power_on headset err_battery err_handshake).2 ↔
      headset.client.id = 0) := by
  have hauth : (gip_headset_power_on headset err_battery err_handshake).1.got_authenticated =
      if (headset.client.hardware.vendor = 0x1532 ∧
            headset.client.hardware.product = 0x0a25) ∨
          (headset.client.hardware.vendor = 0x2f12 ∧
            headset.client.hardware.product = 0x0023) then false
      else true := by
    unfold gip_headset_power_on
    simp only [check_auth_ids_table]
    split_ifs <;> rfl
  refine ⟨?_, ?_, ?_, ?_⟩
  · rw [hauth]
    split_ifs with h <;> simp [h]
  · rw [hauth]
    split_ifs with h <;> simp [h]
  · unfold gip_headset_power_on
    by_cases hid : headset.client.id = 0 <;> by_cases he : err_battery = 0 <;>
      simp [hid, he]
  · unfold gip_headset_power_on
    by_cases hid : headset.client.id = 0 <;> by_cases he : err_battery = 0 <;>
      simp [hid, he]

/-- Witness for claim C27: a standalone Razer Kaira Pro that was marked authenticated and
whose battery initialisation succeeds. -/
theorem power_on_spec_witness :
    (gip_headset_power_on
        { sample_headset with
          client := ⟨0, ⟨0x1532, 0x0a25, 0⟩, ⟨4⟩, ⟨4⟩⟩, got_authenticated := true }
        0 0).1.got_authenticated = false ∧
      headset_call.gip_auth_start_handshake ∈
        (gip_headset_power_on
          { sample_headset with
            client := ⟨0, ⟨0x1532, 0x0a25, 0⟩, ⟨4⟩, ⟨4⟩⟩, got_authenticated := true }
          0 0).2 :=
  ⟨(power_on_spec
      { sample_headset with
        client := ⟨0, ⟨0x1532, 0x0a25, 0⟩, ⟨4⟩, ⟨4⟩⟩, got_authenticated := true }
      0 0).1.2 (Or.inl ⟨rfl, rfl⟩),
   (power_on_spec
      { sample_headset with
        client := ⟨0, ⟨0x1532, 0x0a25, 0⟩, ⟨4⟩, ⟨4⟩⟩, got_authenticated := true }
      0 0).2.2.1.2 ⟨rfl, rfl⟩⟩

/-! ## Session teardown -/

/-- Counterexample for claim C28 as stated: in the teardown of a headset with a sound
card the three deferred tasks are cancelled by calls 0, 1 and 2 and the audio pump timer
is stopped by call 3: the pump timer is not stopped before the tasks are cancelled. -/
theorem remove_cancels_work_before_pump_timer :
    (gip_headset_remove { sample_headset with card := some 1 }).indexOf
        (headset_call.cancel_work_sync headset_work.work_config) = 0 ∧
      (gip_headset_remove { sample_headset with card := some 1 }).indexOf
        (headset_call.cancel_delayed_work_sync headset_work.work_power_on) = 1 ∧
      (gip_headset_remove { sample_headset with card := some 1 }).indexOf
        (headset_call.cancel_work_sync headset_work.work_register) = 2 ∧
      (gip_headset_remove { sample_headset with card := some 1 }).indexOf
        (headset_call.hrtimer_cancel headset_timer.timer) = 3 ∧
      ¬ ((gip_headset_remove { sample_headset with card := some 1 }).indexOf
          (headset_call.hrtimer_cancel headset_timer.timer) <
        (gip_headset_remove { sample_headset with card := some 1 }).indexOf
          (headset_call.cancel_work_sync headset_work.work_config)) := by
  decide

/-- Claim C28, amended: `gip_headset_remove` cancels the pending deferred one-shot tasks
(format configuration, power-on, registration, in this order) before it stops the audio
pump timer; it stops the retry timer as well; and only after the three cancellations and
the two timer stops does it disable audio and then, when a sound card was created,
disconnect it and release it. Where the stop of the retry timer stands among the
cancellations is left open. -/
theorem remove_partial_order (headset : gip_headset) :
    ((gip_headset_remove headset).indexOf
          (headset_call.cancel_work_sync headset_work.work_config) <
        (gip_headset_remove headset).indexOf
          (headset_call.cancel_delayed_work_sync headset_work.work_power_on) ∧
      (gip_headset_remove headset).indexOf
          (headset_call.cancel_delayed_work_sync headset_work.work_power_on) <
        (gip_headset_remove headset).indexOf
          (headset_call.cancel_work_sync headset_work.work_register) ∧
      (gip_headset_remove headset).indexOf
          (headset_call.cancel_work_sync headset_work.work_register) <
        (gip_headset_remove headset).indexOf
          (headset_call.hrtimer_cancel headset_timer.timer)) ∧
    ((gip_headset_remove headset).indexOf
          (headset_call.hrtimer_cancel headset_timer.timer) <
        (gip_headset_remove headset).indexOf headset_call.gip_disable_audio ∧
      (gip_headset_remove headset).indexOf
          (headset_call.hrtimer_cancel headset_timer.start_audio_timer) <
        (gip_headset_remove headset).indexOf headset_call.gip_disable_audio ∧
      (gip_headset_remove headset).indexOf headset_call.gip_disable_audio <
        (gip_headset_remove headset).length) ∧
    (∀ card, headset.card = some card →
      (gip_headset_remove headset).indexOf headset_call.gip_disable_audio <
        (gip_headset_remove headset).indexOf (headset_call.snd_card_disconnect card) ∧
      (gip_headset_remove headset).indexOf (headset_call.snd_card_disconnect card) <
        (gip_headset_remove headset).indexOf (headset_call.snd_card_free_when_closed card) ∧
      (gip_headset_remove headset).indexOf (headset_call.snd_card_free_when_closed card) <
        (gip_headset_remove headset).length) ∧
    (headset.card = none →
      ∀ card, headset_call.snd_card_disconnect card ∉ gip_headset_remove headset ∧
        headset_call.snd_card_free_when_closed card ∉ gip_headset_remove headset) := by
  unfold gip_headset_remove
  rcases hcard : headset.card with _ | c
  · simp [List.indexOf_cons]
  · simp [List.indexOf_cons]

/-- Witness for claim C28: a headset whose sound card was created. -/
theorem remove_partial_order_witness :
    (gip_headset_remove { sample_headset with card := some 1 }).indexOf
        headset_call.gip_disable_audio <
      (gip_headset_remove { sample_headset with card := some 1 }).indexOf
        (headset_call.snd_card_disconnect 1) :=
  ((remove_partial_order { sample_headset with card := some 1 }).2.2.1 1 rfl).1

/-! ## The capture copy -/

theorem capture_getD (runtime : snd_pcm_runtime) (stream : gip_headset_stream)
    (data : List u8) (len j : Nat)
    (hp : stream.pointer < runtime.buffer_bytes) (hlen : len ≤ runtime.buffer_bytes)
    (hdma : runtime.dma_area.length = runtime.buffer_bytes)
    (hj : j < runtime.buffer_bytes) :
    (gip_headset_copy_capture runtime stream data len).2.2.1.getD j 0 =
      if stream.pointer ≤ j ∧ j < stream.pointer + len then
        data.getD (j - stream.pointer) 0
      else if j + runtime.buffer_bytes < stream.pointer + len then
        data.getD (j + runtime.buffer_bytes - stream.pointer) 0
      else runtime.dma_area.getD j 0 := by
  have hrem : size_sub runtime.buffer_bytes stream.pointer =
      runtime.buffer_bytes - stream.pointer := by
    unfold size_sub
    rw [if_pos (by omega)]
  unfold gip_headset_copy_capture
  simp only [hrem, advance_pointer_eq]
  by_cases h : len ≤ runtime.buffer_bytes - stream.pointer
  · rw [if_pos h]
    simp only []
    rw [getD_memcpy _ _ _ _ _ _ (by omega)]
    by_cases h1 : stream.pointer ≤ j ∧ j < stream.pointer + len
    · rw [if_pos h1, if_pos h1, Nat.zero_add]
    · rw [if_neg h1, if_neg h1, if_neg (by omega)]
  · rw [if_neg h]
    simp only []
    rw [getD_memcpy _ _ _ _ _ _ (by rw [length_memcpy]; omega)]
    by_cases h2 : j < len - (runtime.buffer_bytes - stream.pointer)
    · rw [if_pos ⟨Nat.zero_le _, by omega⟩, if_neg (by omega), if_pos (by omega)]
      congr 1
      omega
    · rw [if_neg (by omega), getD_memcpy _ _ _ _ _ _ (by omega)]
      by_cases h1 : stream.pointer ≤ j
      · rw [if_pos ⟨h1, by omega⟩, if_pos ⟨h1, by omega⟩, Nat.zero_add]
      · rw [if_neg (by omega), if_neg (by omega), if_neg (by omega)]

theorem capture_length (runtime : snd_pcm_runtime) (stream : gip_headset_stream)
    (data : List u8) (len : Nat) :
    (gip_headset_copy_capture runtime stream data len).2.2.1.length =
      runtime.dma_area.length := by
  unfold gip_headset_copy_capture
  simp only [advance_pointer_eq]
  split <;> simp [length_memcpy]

theorem playback_getD (runtime : snd_pcm_runtime) (stream : gip_headset_stream)
    (data : List u8) (len i : Nat)
    (hp : stream.pointer < runtime.buffer_bytes) (hlen : len ≤ runtime.buffer_bytes)
    (hdata : len ≤ data.length) (hi : i < len) :
    (gip_headset_copy_playback runtime stream data len).2.2.1.getD i 0 =
      runtime.dma_area.getD ((stream.pointer + i) % runtime.buffer_bytes) 0 := by
  have hrem : size_sub runtime.buffer_bytes stream.pointer =
      runtime.buffer_bytes - stream.pointer := by
    unfold size_sub
    rw [if_pos (by omega)]
  unfold gip_headset_copy_playback
  simp only [hrem, advance_pointer_eq]
  by_cases h : len ≤ runtime.buffer_bytes - stream.pointer
  · rw [if_pos h]
    simp only []
    rw [getD_memcpy _ _ _ _ _ _ (by omega), if_pos (by omega), Nat.mod_eq_of_lt (by omega)]
    simp
  · rw [if_neg h]
    simp only []
    rw [getD_memcpy _ _ _ _ _ _ (by rw [length_memcpy]; omega)]
    by_cases hi2 : runtime.buffer_bytes - stream.pointer ≤ i
    · rw [if_pos ⟨hi2, by omega⟩]
      have hmod : (stream.pointer + i) % runtime.buffer_bytes =
          i - (runtime.buffer_bytes - stream.pointer) := by
        rw [Nat.mod_eq_sub_mod (by omega), Nat.mod_eq_of_lt (by omega)]
        omega
      rw [hmod]
      simp
    · rw [if_neg (by omega), getD_memcpy _ _ _ _ _ _ (by omega), if_pos (by omega),
        Nat.mod_eq_of_lt (by omega)]
      simp

/-- Claim C25: for a circular capture buffer of `buf_size > 0` bytes, a cursor
`pointer < buf_size` and a packet length `len <= buf_size`, `gip_headset_copy_capture`
stores `data[i]` at `dest[(pointer + i) mod buf_size]` for every `i < len`, leaves every
other byte of the buffer unchanged and advances the cursor to `(pointer + len) mod
buf_size`; reading `len` bytes back from the same cursor with `gip_headset_copy_playback`
returns the packet. -/
theorem copy_capture_spec (runtime : snd_pcm_runtime) (stream : gip_headset_stream)
    (data : List u8) (len : Nat)
    (_hbuf : 0 < runtime.buffer_bytes) (hp : stream.pointer < runtime.buffer_bytes)
    (hlen : len ≤ runtime.buffer_bytes)
    (hdma : runtime.dma_area.length = runtime.buffer_bytes) :
    (∀ i, i < len →
      (gip_headset_copy_capture runtime stream data len).2.2.1.getD
          ((stream.pointer + i) % runtime.buffer_bytes) 0 = data.getD i 0) ∧
    (∀ j, j < runtime.buffer_bytes →
      (∀ i, i < len → j ≠ (stream.pointer + i) % runtime.buffer_bytes) →
      (gip_headset_copy_capture runtime stream data len).2.2.1.getD j 0 =
        runtime.dma_area.getD j 0) ∧
    (gip_headset_copy_capture runtime stream data len).2.2.1.length =
      runtime.buffer_bytes ∧
    (gip_headset_copy_capture runtime stream data len).2.1.pointer =
      (stream.pointer + len) % runtime.buffer_bytes ∧
    (∀ out : List u8, len ≤ out.length → ∀ i, i < len →
      (gip_headset_copy_playback
          { runtime with
            dma_area := (gip_headset_copy_capture runtime stream data len).2.2.1 }
          stream out len).2.2.1.getD i 0 = data.getD i 0) := by
  have hstore : ∀ i, i < len →
      (gip_headset_copy_capture runtime stream data len).2.2.1.getD
          ((stream.pointer + i) % runtime.buffer_bytes) 0 = data.getD i 0 := by
    intro i hi
    rw [capture_getD runtime stream data len _ hp hlen hdma (Nat.mod_lt _ (by omega))]
    by_cases hw : stream.pointer + i < runtime.buffer_bytes
    · rw [Nat.mod_eq_of_lt hw, if_pos ⟨by omega, by omega⟩]
      congr 1
      omega
    · have hmod : (stream.pointer + i) % runtime.buffer_bytes =
          stream.pointer + i - runtime.buffer_bytes := by
        rw [Nat.mod_eq_sub_mod (by omega), Nat.mod_eq_of_lt (by omega)]
      rw [hmod, if_neg (by omega), if_pos (by omega)]
      congr 1
      omega
  refine ⟨hstore, ?_, ?_, ?_, ?_⟩
  · intro j hj hne
    rw [capture_getD runtime stream data len j hp hlen hdma hj]
    by_cases h1 : stream.pointer ≤ j ∧ j < stream.pointer + len
    · exfalso
      apply hne (j - stream.pointer) (by omega)
      have e : stream.pointer + (j - stream.pointer) = j := by omega
      rw [e, Nat.mod_eq_of_lt hj]
    · rw [if_neg h1]
      by_cases h2 : j + runtime.buffer_bytes < stream.pointer + len
      · exfalso
        apply hne (j + runtime.buffer_bytes - stream.pointer) (by omega)
        have e : stream.pointer + (j + runtime.buffer_bytes - stream.pointer) =
            j + runtime.buffer_bytes := by omega
        rw [e, Nat.add_mod_right, Nat.mod_eq_of_lt hj]
      · rw [if_neg h2]
  · rw [capture_length, hdma]
  · unfold gip_headset_copy_capture
    simp only [advance_pointer_eq]
    exact wrap_once _ _ (by omega)
  · intro out hout i hi
    have hread := playback_getD
      { runtime with dma_area := (gip_headset_copy_capture runtime stream data len).2.2.1 }
      stream out len i hp hlen hout hi
    rw [hread]
    exact hstore i hi

/-- Witness for claim C25: a 2-byte packet captured at cursor 3 of a 4-byte ring and read
back. -/
theorem copy_capture_spec_witness :
    (gip_headset_copy_capture ⟨[0, 0, 0, 0], 2, 4⟩ ⟨none, 3, 0⟩ [1, 2] 2).2.2.1.length = 4 ∧
      (gip_headset_copy_capture ⟨[0, 0, 0, 0], 2, 4⟩ ⟨none, 3, 0⟩ [1, 2] 2).2.1.pointer
        = (3 + 2) % 4 :=
  ⟨(copy_capture_spec ⟨[0, 0, 0, 0], 2, 4⟩ ⟨none, 3, 0⟩ [1, 2] 2 (by decide) (by decide)
      (by decide) rfl).2.2.1,
   (copy_capture_spec ⟨[0, 0, 0, 0], 2, 4⟩ ⟨none, 3, 0⟩ [1, 2] 2 (by decide) (by decide)
      (by decide) rfl).2.2.2.1⟩

end Xone
